import Mathlib

/-! Admission control of `spl-seg_kmem.c`.

A shallow embedding of `src/module/spl/spl-seg_kmem.c` (the `_KERNEL` build) and
theorems about its allocation strategies, dispatcher and release path.

* The file-scope `uint64_t` globals and the function-local `static lastsuccess`
  of `osif_malloc_pushpage` are the fields of `State`.  Two further fields,
  `kma_calls` and `kmem_free_calls`, are ghost counters: they count how often the
  host primitives `kernel_memory_allocate` and `kmem_free` have been invoked.
* What the file only declares `extern` (or takes from headers) is the `Env` of a
  call: `total_memory`, `PAGESIZE`, the tick `zfs_lbolt()`, the two page gauges
  and the host allocator itself, given as an oracle from the number of earlier
  invocations and the requested size to a `(kr, tr)` pair.
* `uint64_t` arithmetic is arithmetic on `Nat` reduced modulo `2 ^ 64`.
* Execution is sequential; the `atomic_*` helpers are plain updates.  The
  diagnostic `printf` of the forced path has no effect on the state and is left
  out.
-/

namespace SegKmem

/-! ## Machine arithmetic -/

/-- The modulus of `uint64_t` arithmetic. -/
abbrev UINT64_MOD : Nat := 18446744073709551616

/-- Addition `a + b` in `uint64_t`. -/
def add64 (a b : Nat) : Nat := (a + b) % UINT64_MOD

/-- Subtraction `a - b` in `uint64_t`. -/
def sub64 (a b : Nat) : Nat := (a + (UINT64_MOD - b % UINT64_MOD)) % UINT64_MOD

/-- Multiplication `a * b` in `uint64_t`. -/
def mul64 (a b : Nat) : Nat := (a * b) % UINT64_MOD

/-! ## Host interface -/

/-- A `void *`, as an address. -/
abbrev Ptr := Nat

/-- The null pointer. -/
def NULL : Ptr := 0

/-- The `kern_return_t` value of success. -/
def KERN_SUCCESS : Nat := 0

/-- What one invocation of `kernel_memory_allocate(kernel_map, &tr, ...)` yields: the
return code and the address stored through `addrp`. -/
structure KmaReturn where
  kr : Nat
  tr : Ptr

/-- The host side of one call into the layer.  `kernel_memory_allocate n size` is the
outcome of the invocation made after `n` earlier invocations; `kma_valid` is the host
contract that a successful invocation stores a non-null address. -/
structure Env where
  total_memory : Nat
  PAGESIZE : Nat
  zfs_lbolt : Nat
  vm_page_free_wanted : Nat
  vm_page_free_count : Nat
  kernel_memory_allocate : Nat → Nat → KmaReturn
  kma_valid : ∀ n size, (kernel_memory_allocate n size).kr = KERN_SUCCESS →
    (kernel_memory_allocate n size).tr ≠ NULL

/-! ## Global budget state -/

/-- The mutable globals of the file, `lastsuccess`, and the two ghost counters. -/
structure State where
  segkmem_total_mem_allocated : Nat
  tunable_osif_memory_cap : Nat
  tunable_osif_memory_reserve : Nat
  tunable_osif_pushpage_waitlimit : Nat
  stat_osif_malloc_denied : Nat
  stat_osif_malloc_success : Nat
  stat_osif_malloc_fail : Nat
  stat_osif_free : Nat
  stat_osif_cum_reserve_allocs : Nat
  stat_osif_cum_reserve_bytes : Nat
  stat_osif_uncapped_calls : Nat
  stat_osif_capped_calls : Nat
  stat_osif_default_calls : Nat
  lastsuccess : Nat
  kma_calls : Nat
  kmem_free_calls : Nat

/-- The constant of `#define OSIF_RESERVE_PERCENT_ULL 10ULL`, the percentage above the cap
that may be allocated. -/
def OSIF_RESERVE_PERCENT_ULL : Nat := 10

/-- One invocation of the host allocator: the oracle is asked, the ghost counter
advances. -/
def kernel_memory_allocate (env : Env) (s : State) (size : Nat) : KmaReturn × State :=
  (env.kernel_memory_allocate s.kma_calls size, { s with kma_calls := s.kma_calls + 1 })

/-- The statement `if (tunable_osif_memory_cap == 0 && total_memory > 0)
tunable_osif_memory_cap = total_memory;`, which opens both `osif_malloc_reserve_cap` and
(after its call counter) `osif_malloc_capped`. -/
def lazy_cap (env : Env) (s : State) : State :=
  if s.tunable_osif_memory_cap = 0 ∧ env.total_memory > 0 then
    { s with tunable_osif_memory_cap := env.total_memory }
  else s

/-- The value assigned to `tunable_osif_memory_reserve`:
`total_memory + (total_memory * OSIF_RESERVE_PERCENT_ULL / 100ULL)`. -/
def reserve_value (total_memory : Nat) : Nat :=
  add64 total_memory (mul64 total_memory OSIF_RESERVE_PERCENT_ULL / 100)

/-- The statement `if (tunable_osif_memory_reserve <= tunable_osif_memory_cap &&
total_memory > 0) tunable_osif_memory_reserve = ...;`, the second statement of
`osif_malloc_reserve_cap`. -/
def lazy_reserve (env : Env) (s : State) : State :=
  if s.tunable_osif_memory_reserve ≤ s.tunable_osif_memory_cap ∧ env.total_memory > 0 then
    { s with tunable_osif_memory_reserve := reserve_value env.total_memory }
  else s

/-- The function `osif_malloc_reserve_cap(size)`. -/
def osif_malloc_reserve_cap (env : Env) (s : State) (size : Nat) : Ptr × State :=
  let s1 := lazy_cap env s
  let s2 := lazy_reserve env s1
  let s3 := { s2 with
    stat_osif_cum_reserve_allocs := add64 s2.stat_osif_cum_reserve_allocs 1 }
  if add64 s3.segkmem_total_mem_allocated size ≤ s3.tunable_osif_memory_reserve then
    let k := kernel_memory_allocate env s3 size
    if k.1.kr = KERN_SUCCESS then
      let s4 := { k.2 with stat_osif_malloc_success := add64 k.2.stat_osif_malloc_success 1 }
      let s5 := { s4 with
        segkmem_total_mem_allocated := add64 s4.segkmem_total_mem_allocated size }
      if s5.segkmem_total_mem_allocated > env.total_memory then
        (k.1.tr, { s5 with
          stat_osif_cum_reserve_bytes := add64 s5.stat_osif_cum_reserve_bytes size })
      else
        (k.1.tr, s5)
    else
      (NULL, { k.2 with stat_osif_malloc_fail := add64 k.2.stat_osif_malloc_fail 1 })
  else
    (NULL, { s3 with stat_osif_malloc_denied := add64 s3.stat_osif_malloc_denied 1 })

/-- The function `osif_malloc_uncapped(size)`. -/
def osif_malloc_uncapped (env : Env) (s : State) (size : Nat) : Ptr × State :=
  let s1 := { s with stat_osif_uncapped_calls := add64 s.stat_osif_uncapped_calls 1 }
  let k := kernel_memory_allocate env s1 size
  if k.1.kr = KERN_SUCCESS then
    let s2 := { k.2 with stat_osif_malloc_success := add64 k.2.stat_osif_malloc_success 1 }
    (k.1.tr, { s2 with
      segkmem_total_mem_allocated := add64 s2.segkmem_total_mem_allocated size })
  else
    (NULL, { k.2 with stat_osif_malloc_fail := add64 k.2.stat_osif_malloc_fail 1 })

/-- The function `osif_malloc_capped(size)`. -/
def osif_malloc_capped (env : Env) (s : State) (size : Nat) : Ptr × State :=
  let s1 := { s with stat_osif_capped_calls := add64 s.stat_osif_capped_calls 1 }
  let s2 := lazy_cap env s1
  if add64 s2.segkmem_total_mem_allocated size > s2.tunable_osif_memory_cap ∧
      s2.tunable_osif_memory_cap > 0 ∧ s2.segkmem_total_mem_allocated > 0 then
    (NULL, { s2 with stat_osif_malloc_denied := add64 s2.stat_osif_malloc_denied 1 })
  else
    let k := kernel_memory_allocate env s2 size
    if k.1.kr = KERN_SUCCESS then
      let s3 := { k.2 with stat_osif_malloc_success := add64 k.2.stat_osif_malloc_success 1 }
      (k.1.tr, { s3 with
        segkmem_total_mem_allocated := add64 s3.segkmem_total_mem_allocated size })
    else
      (NULL, { k.2 with stat_osif_malloc_fail := add64 k.2.stat_osif_malloc_fail 1 })

/-- The function `osif_free(buf, size)`: `kmem_free`, `stat_osif_free++`,
`atomic_sub_64(&segkmem_total_mem_allocated, size)`. -/
def osif_free (s : State) (_buf : Ptr) (size : Nat) : State :=
  let s1 := { s with kmem_free_calls := s.kmem_free_calls + 1 }
  let s2 := { s1 with stat_osif_free := add64 s1.stat_osif_free 1 }
  { s2 with segkmem_total_mem_allocated := sub64 s2.segkmem_total_mem_allocated size }

/-- The function `osif_malloc_pushpage(size)`. The tick is read once on either path. -/
def osif_malloc_pushpage (env : Env) (s : State) (size : Nat) : Ptr × State :=
  let r := osif_malloc_reserve_cap env s size
  if r.1 ≠ NULL then
    (r.1, { r.2 with lastsuccess := env.zfs_lbolt })
  else
    let now := env.zfs_lbolt
    let elapsed := sub64 now r.2.lastsuccess
    if elapsed > r.2.tunable_osif_pushpage_waitlimit ∧ env.vm_page_free_wanted = 0 ∧
        env.vm_page_free_count > size / env.PAGESIZE then
      osif_malloc_uncapped env { r.2 with lastsuccess := now } size
    else
      (NULL, r.2)

/-- The `VM_*` request flags of `<sys/vmem.h>`, which the file uses but does not
define. -/
structure VmFlags where
  VM_SLEEP : Nat
  VM_NOSLEEP : Nat
  VM_PANIC : Nat
  VM_PUSHPAGE : Nat
  VM_NORMALPRI : Nat

/-- The values the flags have in the illumos header the port derives from. -/
def illumosFlags : VmFlags :=
  { VM_SLEEP := 0, VM_NOSLEEP := 1, VM_PANIC := 2, VM_PUSHPAGE := 4, VM_NORMALPRI := 8 }

/-- The function `segkmem_alloc(vmp, size, vmflag)`.  The arena argument is not used by the body.
`vmflag` is the bit pattern of the `int` argument, so `vmflag & 0xff` is
`vmflag % 256`. -/
def segkmem_alloc (F : VmFlags) (env : Env) (s : State) (size : Nat) (vmflag : Nat) :
    Ptr × State :=
  if vmflag = F.VM_SLEEP then osif_malloc_capped env s size
  else
    let vmflags := vmflag % 256
    if vmflags &&& F.VM_PANIC ≠ 0 then osif_malloc_uncapped env s size
    else if vmflags &&& F.VM_PUSHPAGE ≠ 0 then osif_malloc_pushpage env s size
    else if vmflags &&& F.VM_NORMALPRI ≠ 0 then osif_malloc_capped env s size
    else if vmflags &&& F.VM_NOSLEEP ≠ 0 then osif_malloc_capped env s size
    else
      osif_malloc_capped env
        { s with stat_osif_default_calls := add64 s.stat_osif_default_calls 1 } size

/-- The function `segkmem_zio_alloc(vmp, size, vmflag)`. -/
def segkmem_zio_alloc (F : VmFlags) (env : Env) (s : State) (size : Nat) (vmflag : Nat) :
    Ptr × State :=
  if vmflag = F.VM_SLEEP then osif_malloc_capped env s size
  else
    let vmflags := vmflag % 256
    if vmflags &&& F.VM_PANIC ≠ 0 then osif_malloc_uncapped env s size
    else if vmflags &&& F.VM_PUSHPAGE ≠ 0 then osif_malloc_pushpage env s size
    else if vmflags &&& F.VM_NORMALPRI ≠ 0 then osif_malloc_capped env s size
    else if vmflags &&& F.VM_NOSLEEP ≠ 0 then osif_malloc_capped env s size
    else
      osif_malloc_capped env
        { s with stat_osif_default_calls := add64 s.stat_osif_default_calls 1 } size

/-- The function `segkmem_free(vmp, inaddr, size)`. -/
def segkmem_free (s : State) (inaddr : Ptr) (size : Nat) : State :=
  osif_free s inaddr size

/-- The function `segkmem_zio_free(vmp, inaddr, size)`. -/
def segkmem_zio_free (s : State) (inaddr : Ptr) (size : Nat) : State :=
  osif_free s inaddr size

/-! ## Sequences of calls -/

/-- The four allocation strategies, as tags. -/
inductive Strategy where
  | Uncapped
  | Capped
  | Reserve
  | Pushpage
  deriving DecidableEq

/-- Run the strategy a tag names. -/
def Strategy.run : Strategy → Env → State → Nat → Ptr × State
  | .Uncapped => osif_malloc_uncapped
  | .Capped => osif_malloc_capped
  | .Reserve => osif_malloc_reserve_cap
  | .Pushpage => osif_malloc_pushpage

/-- One call into the layer: a strategy call with the host side it meets, or a release of
`buf` with `size`. -/
inductive Op where
  | alloc (st : Strategy) (env : Env) (size : Nat)
  | free (buf : Ptr) (size : Nat)

/-- The budget state together with the caller's record of the grants still outstanding,
each with the address returned and the size requested. -/
structure Ledger where
  state : State
  outstanding : List (Ptr × Nat)

/-- Sum of the sizes of the outstanding grants. -/
def Ledger.outstanding_bytes (c : Ledger) : Nat := (c.outstanding.map Prod.snd).sum

/-- One call: a strategy call that returns a non-null address adds a grant to the record,
a release takes the released grant off it. -/
def Ledger.step (c : Ledger) : Op → Ledger
  | .alloc st env size =>
    if (st.run env c.state size).1 ≠ NULL then
      { state := (st.run env c.state size).2,
        outstanding := ((st.run env c.state size).1, size) :: c.outstanding }
    else
      { state := (st.run env c.state size).2, outstanding := c.outstanding }
  | .free buf size =>
    { state := segkmem_free c.state buf size, outstanding := c.outstanding.erase (buf, size) }

/-- A sequence of calls, from the left. -/
def Ledger.run (c : Ledger) (ops : List Op) : Ledger := ops.foldl Ledger.step c

/-- Every release in the sequence names a grant that is outstanding when it is made, with
the size it was granted with. -/
def Ledger.matched (c : Ledger) : List Op → Bool
  | [] => true
  | .alloc st env size :: ops => Ledger.matched (c.step (.alloc st env size)) ops
  | .free buf size :: ops =>
    c.outstanding.contains (buf, size) && Ledger.matched (c.step (.free buf size)) ops

/-- The outstanding sizes sum to less than `2^64` after every prefix of the sequence. -/
def Ledger.bounded (c : Ledger) : List Op → Bool
  | [] => decide (c.outstanding_bytes < 2 ^ 64)
  | op :: ops => decide (c.outstanding_bytes < 2 ^ 64) && Ledger.bounded (c.step op) ops

/-- The accounting of a call that started in `s`, asked for `size` and ended with result
and state `r`: it is granted (non-null address, one successful host invocation, success
counter advanced by one, the other two untouched), or failed (`NULL`, one unsuccessful
host invocation, fail counter advanced by one, the other two untouched), or denied
(`NULL`, no host invocation, denied counter advanced by one, the other two untouched). -/
def Accounted (env : Env) (s : State) (size : Nat) (r : Ptr × State) : Prop :=
  (r.1 ≠ NULL ∧ r.2.kma_calls = s.kma_calls + 1 ∧
    (env.kernel_memory_allocate s.kma_calls size).kr = KERN_SUCCESS ∧
    r.2.stat_osif_malloc_success = add64 s.stat_osif_malloc_success 1 ∧
    r.2.stat_osif_malloc_fail = s.stat_osif_malloc_fail ∧
    r.2.stat_osif_malloc_denied = s.stat_osif_malloc_denied) ∨
  (r.1 = NULL ∧ r.2.kma_calls = s.kma_calls + 1 ∧
    (env.kernel_memory_allocate s.kma_calls size).kr ≠ KERN_SUCCESS ∧
    r.2.stat_osif_malloc_success = s.stat_osif_malloc_success ∧
    r.2.stat_osif_malloc_fail = add64 s.stat_osif_malloc_fail 1 ∧
    r.2.stat_osif_malloc_denied = s.stat_osif_malloc_denied) ∨
  (r.1 = NULL ∧ r.2.kma_calls = s.kma_calls ∧
    r.2.stat_osif_malloc_success = s.stat_osif_malloc_success ∧
    r.2.stat_osif_malloc_fail = s.stat_osif_malloc_fail ∧
    r.2.stat_osif_malloc_denied = add64 s.stat_osif_malloc_denied 1)

/-- What one call on a host with total `T` may do to the configuration when it takes `s`
to `t`: the cap is kept, or was zero and is now `T`; the threshold is kept, or was at most
the (new) cap and is now the value computed from `T`. -/
def ConfigStep (T : Nat) (s t : State) : Prop :=
  (t.tunable_osif_memory_cap = s.tunable_osif_memory_cap ∨
    (s.tunable_osif_memory_cap = 0 ∧ t.tunable_osif_memory_cap = T)) ∧
  (t.tunable_osif_memory_reserve = s.tunable_osif_memory_reserve ∨
    (s.tunable_osif_memory_reserve ≤ t.tunable_osif_memory_cap ∧
      t.tunable_osif_memory_reserve = reserve_value T))

/-- A default call: the flag word is not the `VM_SLEEP` sentinel and none of `VM_PANIC`,
`VM_PUSHPAGE`, `VM_NORMALPRI`, `VM_NOSLEEP` is set in its low 8 bits. -/
def DefaultCall (F : VmFlags) (vmflag : Nat) : Prop :=
  vmflag ≠ F.VM_SLEEP ∧ (vmflag % 256) &&& F.VM_PANIC = 0 ∧
    (vmflag % 256) &&& F.VM_PUSHPAGE = 0 ∧ (vmflag % 256) &&& F.VM_NORMALPRI = 0 ∧
    (vmflag % 256) &&& F.VM_NOSLEEP = 0

/-- One entry into the layer from outside: a strategy called directly, one of the two
dispatchers, or one of the two release entry points. -/
inductive Call where
  | strategy (st : Strategy) (env : Env) (size : Nat)
  | alloc (F : VmFlags) (env : Env) (size : Nat) (vmflag : Nat)
  | zio_alloc (F : VmFlags) (env : Env) (size : Nat) (vmflag : Nat)
  | free (inaddr : Ptr) (size : Nat)
  | zio_free (inaddr : Ptr) (size : Nat)

/-- The state an entry leaves. -/
def Call.exec : Call → State → State
  | .strategy st env size, s => (st.run env s size).2
  | .alloc F env size vmflag, s => (segkmem_alloc F env s size vmflag).2
  | .zio_alloc F env size vmflag, s => (segkmem_zio_alloc F env s size vmflag).2
  | .free inaddr size, s => segkmem_free s inaddr size
  | .zio_free inaddr size, s => segkmem_zio_free s inaddr size

/-- The entry is made on a host whose total-memory figure is `T` (a release does not read
the figure). -/
def Call.sees (T : Nat) : Call → Bool
  | .strategy _ env _ => decide (env.total_memory = T)
  | .alloc _ env _ _ => decide (env.total_memory = T)
  | .zio_alloc _ env _ _ => decide (env.total_memory = T)
  | .free _ _ => true
  | .zio_free _ _ => true

/-- The state after a sequence of entries, from the left. -/
def exec_all (s : State) (calls : List Call) : State :=
  calls.foldl (fun s c => c.exec s) s

/-! ## Concrete hosts and states used to evaluate the definitions -/

/-- A host whose allocator always succeeds with address `4096`. -/
def hostOk (total_memory now wanted count : Nat) : Env :=
  { total_memory := total_memory, PAGESIZE := 4096, zfs_lbolt := now,
    vm_page_free_wanted := wanted, vm_page_free_count := count,
    kernel_memory_allocate := fun _ _ => ⟨0, 4096⟩,
    kma_valid := fun _ _ _ => by simp [NULL] }

/-- A host whose allocator always fails. -/
def hostFail (total_memory now wanted count : Nat) : Env :=
  { total_memory := total_memory, PAGESIZE := 4096, zfs_lbolt := now,
    vm_page_free_wanted := wanted, vm_page_free_count := count,
    kernel_memory_allocate := fun _ _ => ⟨5, 0⟩,
    kma_valid := fun _ _ h => by simp [KERN_SUCCESS] at h }

/-- A state with the given budget figures and every counter zero. -/
def budget (allocated cap reserve : Nat) : State :=
  { segkmem_total_mem_allocated := allocated, tunable_osif_memory_cap := cap,
    tunable_osif_memory_reserve := reserve, tunable_osif_pushpage_waitlimit := 1000,
    stat_osif_malloc_denied := 0, stat_osif_malloc_success := 0,
    stat_osif_malloc_fail := 0, stat_osif_free := 0, stat_osif_cum_reserve_allocs := 0,
    stat_osif_cum_reserve_bytes := 0, stat_osif_uncapped_calls := 0,
    stat_osif_capped_calls := 0, stat_osif_default_calls := 0, lastsuccess := 0,
    kma_calls := 0, kmem_free_calls := 0 }

/-- Four calls on a host with 1000000 bytes: an uncapped grant of 4096, a capped grant of
8192, the release of the first grant, and a reserve grant of 4096. -/
def sampleOps : List Op :=
  [.alloc .Uncapped (hostOk 1000000 0 0 0) 4096, .alloc .Capped (hostOk 1000000 0 0 0) 8192,
   .free 4096 4096, .alloc .Reserve (hostOk 1000000 0 0 0) 4096]

/-- Five entries on a host with 1000 bytes: a capped request through the dispatcher, a
reserve request, a pushpage request through the I/O dispatcher, a release and an uncapped
request. -/
def sampleCalls : List Call :=
  [.alloc illumosFlags (hostOk 1000 0 0 0) 100 8, .strategy .Reserve (hostOk 1000 0 0 0) 200,
   .zio_alloc illumosFlags (hostFail 1000 0 0 0) 300 4, .free 4096 100,
   .strategy .Uncapped (hostOk 1000 0 0 0) 5000]

/-! ## The capped strategy -/

/-- C1. Capped denial boundary. With `C` the cap after the lazy initialisation at the top
of the call, `A` the allocated total and `A + size` taken in 64-bit arithmetic,
`osif_malloc_capped` denies (returns `NULL`, advances the denial counter by one, does not
invoke the host allocator) exactly when `A + size > C`, `C > 0` and `A > 0`; in every
other case it invokes the host allocator exactly once and leaves the denial counter
alone. In particular, with `A > 0` and `C > 0`, a request with `A + size > C` is denied
and one with `A + size ≤ C` is forwarded. -/
theorem osif_malloc_capped_denial_boundary (env : Env) (s : State) (size : Nat) :
    (((osif_malloc_capped env s size).1 = NULL ∧
        (osif_malloc_capped env s size).2.stat_osif_malloc_denied =
          add64 s.stat_osif_malloc_denied 1 ∧
        (osif_malloc_capped env s size).2.kma_calls = s.kma_calls) ↔
      (add64 s.segkmem_total_mem_allocated size > (lazy_cap env s).tunable_osif_memory_cap ∧
        (lazy_cap env s).tunable_osif_memory_cap > 0 ∧ s.segkmem_total_mem_allocated > 0)) ∧
    (¬ (add64 s.segkmem_total_mem_allocated size > (lazy_cap env s).tunable_osif_memory_cap ∧
        (lazy_cap env s).tunable_osif_memory_cap > 0 ∧ s.segkmem_total_mem_allocated > 0) →
      (osif_malloc_capped env s size).2.kma_calls = s.kma_calls + 1 ∧
      (osif_malloc_capped env s size).2.stat_osif_malloc_denied =
        s.stat_osif_malloc_denied) ∧
    (s.segkmem_total_mem_allocated > 0 → (lazy_cap env s).tunable_osif_memory_cap > 0 →
      (add64 s.segkmem_total_mem_allocated size > (lazy_cap env s).tunable_osif_memory_cap →
        (osif_malloc_capped env s size).1 = NULL ∧
        (osif_malloc_capped env s size).2.kma_calls = s.kma_calls) ∧
      (add64 s.segkmem_total_mem_allocated size ≤ (lazy_cap env s).tunable_osif_memory_cap →
        (osif_malloc_capped env s size).2.kma_calls = s.kma_calls + 1)) := by
  unfold osif_malloc_capped kernel_memory_allocate lazy_cap
  dsimp only
  split_ifs <;> simp_all [NULL, add64] <;> omega

/-- C1, evaluated: with 900 of a cap of 1000 allocated, a request of 200 is denied without
asking the host, and a request of 100 is forwarded. -/
theorem osif_malloc_capped_denial_boundary_witness :
    ((osif_malloc_capped (hostOk 1000 0 0 0) (budget 900 1000 1100) 200).1 = NULL ∧
      (osif_malloc_capped (hostOk 1000 0 0 0) (budget 900 1000 1100) 200).2.kma_calls = 0) ∧
    (osif_malloc_capped (hostOk 1000 0 0 0) (budget 900 1000 1100) 100).2.kma_calls = 1 :=
  ⟨((osif_malloc_capped_denial_boundary (hostOk 1000 0 0 0) (budget 900 1000 1100) 200).2.2
      (by decide) (by decide)).1 (by decide),
   ((osif_malloc_capped_denial_boundary (hostOk 1000 0 0 0) (budget 900 1000 1100) 100).2.2
      (by decide) (by decide)).2 (by decide)⟩

/-! ## The reserve strategy -/

/-- C2 as stated fails when the cap is not the host total: with `cap = 1000`,
`reserve = 1000 + 1000*10/100 = 1100`, 1000 bytes allocated and a host total of 2000, a
reserve request of 50 is within the threshold, is granted, and leaves 1050 > cap
allocated, yet the bytes-above-cap counter stays at 0. -/
theorem reserve_bytes_counter_compares_total_memory :
    (budget 1000 1000 1100).tunable_osif_memory_cap = 1000 ∧
    (budget 1000 1000 1100).tunable_osif_memory_reserve = 1000 + 1000 * 10 / 100 ∧
    add64 (budget 1000 1000 1100).segkmem_total_mem_allocated 50 ≤
      (budget 1000 1000 1100).tunable_osif_memory_reserve ∧
    ((hostOk 2000 0 0 0).kernel_memory_allocate 0 50).kr = KERN_SUCCESS ∧
    (osif_malloc_reserve_cap (hostOk 2000 0 0 0) (budget 1000 1000 1100) 50).1 = 4096 ∧
    (osif_malloc_reserve_cap (hostOk 2000 0 0 0)
      (budget 1000 1000 1100) 50).2.segkmem_total_mem_allocated = 1050 ∧
    (osif_malloc_reserve_cap (hostOk 2000 0 0 0)
      (budget 1000 1000 1100) 50).2.stat_osif_cum_reserve_bytes = 0 := by
  decide

/-- C2, amended. In a state with `cap = C > 0` and `reserve_threshold = C + C*10/100`
(exactly, or as the 64-bit expression of the code computes it), and with the host total
equal to `C`: a reserve request with `A + size` (64-bit) above the threshold is denied
(`NULL`, denial counter advanced by one, host allocator not invoked); one with
`A + size` at most the threshold is forwarded, and when the host succeeds the stored
address is returned and the bytes-above-cap counter grows by `size` if the allocated
total after the grant exceeds `C` and is unchanged otherwise. -/
theorem osif_malloc_reserve_cap_hysteresis (env : Env) (s : State) (size : Nat)
    (hC : 0 < s.tunable_osif_memory_cap)
    (hR : s.tunable_osif_memory_reserve =
        s.tunable_osif_memory_cap + s.tunable_osif_memory_cap * 10 / 100 ∨
      s.tunable_osif_memory_reserve = reserve_value s.tunable_osif_memory_cap)
    (hT : env.total_memory = s.tunable_osif_memory_cap) :
    (add64 s.segkmem_total_mem_allocated size > s.tunable_osif_memory_reserve →
      (osif_malloc_reserve_cap env s size).1 = NULL ∧
      (osif_malloc_reserve_cap env s size).2.stat_osif_malloc_denied =
        add64 s.stat_osif_malloc_denied 1 ∧
      (osif_malloc_reserve_cap env s size).2.kma_calls = s.kma_calls) ∧
    (add64 s.segkmem_total_mem_allocated size ≤ s.tunable_osif_memory_reserve →
      (osif_malloc_reserve_cap env s size).2.kma_calls = s.kma_calls + 1 ∧
      (osif_malloc_reserve_cap env s size).2.stat_osif_malloc_denied =
        s.stat_osif_malloc_denied ∧
      ((env.kernel_memory_allocate s.kma_calls size).kr = KERN_SUCCESS →
        (osif_malloc_reserve_cap env s size).1 =
          (env.kernel_memory_allocate s.kma_calls size).tr ∧
        (osif_malloc_reserve_cap env s size).1 ≠ NULL ∧
        (osif_malloc_reserve_cap env s size).2.segkmem_total_mem_allocated =
          add64 s.segkmem_total_mem_allocated size ∧
        ((osif_malloc_reserve_cap env s size).2.segkmem_total_mem_allocated >
            s.tunable_osif_memory_cap →
          (osif_malloc_reserve_cap env s size).2.stat_osif_cum_reserve_bytes =
            add64 s.stat_osif_cum_reserve_bytes size) ∧
        (¬ (osif_malloc_reserve_cap env s size).2.segkmem_total_mem_allocated >
            s.tunable_osif_memory_cap →
          (osif_malloc_reserve_cap env s size).2.stat_osif_cum_reserve_bytes =
            s.stat_osif_cum_reserve_bytes))) := by
  have hv := env.kma_valid s.kma_calls size
  have hsame : lazy_reserve env (lazy_cap env s) = s := by
    unfold lazy_reserve lazy_cap
    have h0 : ¬ (s.tunable_osif_memory_cap = 0 ∧ env.total_memory > 0) := by omega
    rw [if_neg h0]
    split_ifs with h1
    · have : reserve_value env.total_memory = s.tunable_osif_memory_reserve := by
        rw [hT]
        rcases hR with h | h
        · have hlt : s.tunable_osif_memory_cap < 10 := by omega
          unfold reserve_value add64 mul64 OSIF_RESERVE_PERCENT_ULL
          rw [Nat.mod_eq_of_lt (by simp only [UINT64_MOD]; omega :
            s.tunable_osif_memory_cap * 10 < UINT64_MOD)]
          rw [Nat.mod_eq_of_lt (by simp only [UINT64_MOD]; omega :
            s.tunable_osif_memory_cap + s.tunable_osif_memory_cap * 10 / 100 < UINT64_MOD)]
          exact h.symm
        · exact h.symm
      rw [this]
    · rfl
  unfold osif_malloc_reserve_cap kernel_memory_allocate
  dsimp only
  simp only [hsame]
  split_ifs <;> simp_all [NULL, add64]

/-- C2 (amended), evaluated: cap 1000, threshold 1100, host total 1000, 1000 allocated.
A request of 200 is denied; a request of 50 is forwarded and, granted, adds 50 to the
bytes-above-cap counter. -/
theorem osif_malloc_reserve_cap_hysteresis_witness :
    ((osif_malloc_reserve_cap (hostOk 1000 0 0 0) (budget 1000 1000 1100) 200).1 = NULL ∧
      (osif_malloc_reserve_cap (hostOk 1000 0 0 0)
        (budget 1000 1000 1100) 200).2.stat_osif_malloc_denied = 1 ∧
      (osif_malloc_reserve_cap (hostOk 1000 0 0 0) (budget 1000 1000 1100) 200).2.kma_calls
        = 0) ∧
    (osif_malloc_reserve_cap (hostOk 1000 0 0 0) (budget 1000 1000 1100) 50).1 = 4096 ∧
    (osif_malloc_reserve_cap (hostOk 1000 0 0 0)
      (budget 1000 1000 1100) 50).2.stat_osif_cum_reserve_bytes = 50 :=
  ⟨(osif_malloc_reserve_cap_hysteresis (hostOk 1000 0 0 0) (budget 1000 1000 1100) 200
      (by decide) (Or.inl (by decide)) rfl).1 (by decide),
   (((osif_malloc_reserve_cap_hysteresis (hostOk 1000 0 0 0) (budget 1000 1000 1100) 50
      (by decide) (Or.inl (by decide)) rfl).2 (by decide)).2.2 rfl).1,
   ((((osif_malloc_reserve_cap_hysteresis (hostOk 1000 0 0 0) (budget 1000 1000 1100) 50
      (by decide) (Or.inl (by decide)) rfl).2 (by decide)).2.2 rfl).2.2.2.1 (by decide))⟩

/-- C3 at a tuned cap: on a host with 8 GiB of memory whose cap has been set to 4 GiB and
whose threshold is still unset, the recomputation condition holds, and the call leaves the
cap at 4 GiB but sets the threshold to 110% of the host total (9448928051), not to
`cap + cap*10/100` (4724464025). -/
theorem reserve_threshold_from_total_memory :
    (budget 0 4294967296 0).tunable_osif_memory_reserve ≤
      (budget 0 4294967296 0).tunable_osif_memory_cap ∧
    (hostOk 8589934592 0 0 0).total_memory > 0 ∧
    (osif_malloc_reserve_cap (hostOk 8589934592 0 0 0)
      (budget 0 4294967296 0) 4096).2.tunable_osif_memory_cap = 4294967296 ∧
    (osif_malloc_reserve_cap (hostOk 8589934592 0 0 0)
      (budget 0 4294967296 0) 4096).2.tunable_osif_memory_reserve = 9448928051 ∧
    4294967296 + 4294967296 * 10 / 100 = 4724464025 := by
  decide

/-- Whenever `osif_malloc_reserve_cap` recomputes the threshold (threshold at most the cap
once the cap has been lazily initialised, host total known), the new threshold is
`total_memory + total_memory*10/100` in 64-bit arithmetic, whatever the cap is. -/
theorem osif_malloc_reserve_cap_recompute (env : Env) (s : State) (size : Nat)
    (hle : (lazy_cap env s).tunable_osif_memory_reserve ≤
      (lazy_cap env s).tunable_osif_memory_cap)
    (htm : env.total_memory > 0) :
    (osif_malloc_reserve_cap env s size).2.tunable_osif_memory_reserve =
      reserve_value env.total_memory := by
  have hr : (lazy_reserve env (lazy_cap env s)).tunable_osif_memory_reserve =
      reserve_value env.total_memory := by
    unfold lazy_reserve
    rw [if_pos ⟨hle, htm⟩]
  unfold osif_malloc_reserve_cap kernel_memory_allocate
  dsimp only
  split_ifs <;> exact hr

/-- What the reserve strategy leaves untouched: the wait limit, `lastsuccess`, the
per-path counters of the other strategies and the release counters. -/
theorem osif_malloc_reserve_cap_frame (env : Env) (s : State) (size : Nat) :
    (osif_malloc_reserve_cap env s size).2.lastsuccess = s.lastsuccess ∧
    (osif_malloc_reserve_cap env s size).2.tunable_osif_pushpage_waitlimit =
      s.tunable_osif_pushpage_waitlimit ∧
    (osif_malloc_reserve_cap env s size).2.stat_osif_uncapped_calls =
      s.stat_osif_uncapped_calls ∧
    (osif_malloc_reserve_cap env s size).2.stat_osif_capped_calls =
      s.stat_osif_capped_calls ∧
    (osif_malloc_reserve_cap env s size).2.stat_osif_default_calls =
      s.stat_osif_default_calls ∧
    (osif_malloc_reserve_cap env s size).2.stat_osif_free = s.stat_osif_free ∧
    (osif_malloc_reserve_cap env s size).2.kmem_free_calls = s.kmem_free_calls := by
  unfold osif_malloc_reserve_cap kernel_memory_allocate lazy_reserve lazy_cap
  dsimp only
  split_ifs <;> simp

/-- The outcome of the reserve strategy on the allocated total and on the host: a `NULL`
result leaves the total as it was, any other result is the address stored by a successful
host invocation and adds `size`; the host is invoked at most once. -/
theorem osif_malloc_reserve_cap_outcome (env : Env) (s : State) (size : Nat) :
    ((osif_malloc_reserve_cap env s size).1 = NULL →
      (osif_malloc_reserve_cap env s size).2.segkmem_total_mem_allocated =
        s.segkmem_total_mem_allocated) ∧
    ((osif_malloc_reserve_cap env s size).1 ≠ NULL →
      (osif_malloc_reserve_cap env s size).2.segkmem_total_mem_allocated =
        add64 s.segkmem_total_mem_allocated size ∧
      (osif_malloc_reserve_cap env s size).2.kma_calls = s.kma_calls + 1 ∧
      (env.kernel_memory_allocate s.kma_calls size).kr = KERN_SUCCESS ∧
      (osif_malloc_reserve_cap env s size).1 =
        (env.kernel_memory_allocate s.kma_calls size).tr) ∧
    ((osif_malloc_reserve_cap env s size).2.kma_calls = s.kma_calls ∨
      (osif_malloc_reserve_cap env s size).2.kma_calls = s.kma_calls + 1) := by
  have hv := env.kma_valid s.kma_calls size
  unfold osif_malloc_reserve_cap kernel_memory_allocate lazy_reserve lazy_cap
  dsimp only
  split_ifs <;> simp_all [NULL]

/-- The outcome of the uncapped strategy: the host is invoked exactly once, the result is
non-null exactly when that invocation succeeds and is then the stored address, and the
allocated total grows by `size` exactly then. -/
theorem osif_malloc_uncapped_outcome (env : Env) (s : State) (size : Nat) :
    (osif_malloc_uncapped env s size).2.kma_calls = s.kma_calls + 1 ∧
    ((osif_malloc_uncapped env s size).1 ≠ NULL ↔
      (env.kernel_memory_allocate s.kma_calls size).kr = KERN_SUCCESS) ∧
    ((env.kernel_memory_allocate s.kma_calls size).kr = KERN_SUCCESS →
      (osif_malloc_uncapped env s size).1 =
        (env.kernel_memory_allocate s.kma_calls size).tr ∧
      (osif_malloc_uncapped env s size).2.segkmem_total_mem_allocated =
        add64 s.segkmem_total_mem_allocated size) ∧
    ((osif_malloc_uncapped env s size).1 = NULL →
      (osif_malloc_uncapped env s size).2.segkmem_total_mem_allocated =
        s.segkmem_total_mem_allocated) ∧
    (osif_malloc_uncapped env s size).2.lastsuccess = s.lastsuccess ∧
    (osif_malloc_uncapped env s size).2.stat_osif_uncapped_calls =
      add64 s.stat_osif_uncapped_calls 1 ∧
    (osif_malloc_uncapped env s size).2.stat_osif_malloc_denied =
      s.stat_osif_malloc_denied := by
  have hv := env.kma_valid s.kma_calls size
  unfold osif_malloc_uncapped kernel_memory_allocate
  dsimp only
  split_ifs <;> simp_all [NULL]

/-! ## The pushpage strategy -/

/-- C4. Forced path of pushpage: if the reserve attempt fails, the elapsed ticks
`now - lastsuccess` (64-bit) exceed the wait limit, no free pages are wanted and the
free-page count exceeds `size / PAGESIZE`, then `osif_malloc_pushpage` is the uncapped
strategy run after the reserve attempt with `lastsuccess` already set to the tick read in
this call: it returns that strategy's result, which is the address stored by the host
(non-null) whenever that host invocation succeeds, and `lastsuccess` ends as the tick. -/
theorem osif_malloc_pushpage_forced (env : Env) (s : State) (size : Nat)
    (hfail : (osif_malloc_reserve_cap env s size).1 = NULL)
    (hel : sub64 env.zfs_lbolt s.lastsuccess > s.tunable_osif_pushpage_waitlimit)
    (hw : env.vm_page_free_wanted = 0)
    (hc : env.vm_page_free_count > size / env.PAGESIZE) :
    osif_malloc_pushpage env s size =
      osif_malloc_uncapped env
        { (osif_malloc_reserve_cap env s size).2 with lastsuccess := env.zfs_lbolt } size ∧
    (osif_malloc_pushpage env s size).2.lastsuccess = env.zfs_lbolt ∧
    (osif_malloc_pushpage env s size).2.stat_osif_uncapped_calls =
      add64 s.stat_osif_uncapped_calls 1 ∧
    (osif_malloc_pushpage env s size).2.kma_calls =
      (osif_malloc_reserve_cap env s size).2.kma_calls + 1 ∧
    ((env.kernel_memory_allocate
        (osif_malloc_reserve_cap env s size).2.kma_calls size).kr = KERN_SUCCESS →
      (osif_malloc_pushpage env s size).1 =
        (env.kernel_memory_allocate
          (osif_malloc_reserve_cap env s size).2.kma_calls size).tr ∧
      (osif_malloc_pushpage env s size).1 ≠ NULL) := by
  obtain ⟨hls, hwl, huc, -⟩ := osif_malloc_reserve_cap_frame env s size
  have hpp : osif_malloc_pushpage env s size =
      osif_malloc_uncapped env
        { (osif_malloc_reserve_cap env s size).2 with lastsuccess := env.zfs_lbolt } size := by
    unfold osif_malloc_pushpage
    dsimp only
    rw [if_neg (by simp [hfail]), if_pos (by rw [hls, hwl]; exact ⟨hel, hw, hc⟩)]
  obtain ⟨h1, h2, h3, -, h5, h6, -⟩ := osif_malloc_uncapped_outcome env
    { (osif_malloc_reserve_cap env s size).2 with lastsuccess := env.zfs_lbolt } size
  rw [hpp]
  refine ⟨rfl, h5, ?_, h1, fun hk => ⟨(h3 hk).1, h2.2 hk⟩⟩
  rw [h6]
  exact congrArg (fun x => add64 x 1) huc

/-- C4, evaluated: 2000 of a threshold of 1100 allocated, last success at tick 0, now
tick 5000 with a wait limit of 1000, no pages wanted and 100 pages free: a pushpage
request of one page is granted by the forced path and `lastsuccess` becomes 5000. -/
theorem osif_malloc_pushpage_forced_witness :
    (osif_malloc_pushpage (hostOk 1000 5000 0 100) (budget 2000 1000 1100) 4096).1 = 4096 ∧
    (osif_malloc_pushpage (hostOk 1000 5000 0 100) (budget 2000 1000 1100) 4096).2.lastsuccess
      = 5000 :=
  ⟨((osif_malloc_pushpage_forced (hostOk 1000 5000 0 100) (budget 2000 1000 1100) 4096
      (by decide) (by decide) (by decide) (by decide)).2.2.2.2 (by decide)).1,
   (osif_malloc_pushpage_forced (hostOk 1000 5000 0 100) (budget 2000 1000 1100) 4096
      (by decide) (by decide) (by decide) (by decide)).2.1⟩

/-- C5. Stall of pushpage: if the reserve attempt fails and at least one of the three
force conditions is false (elapsed ticks at most the wait limit, or free pages wanted, or
the free-page count at most `size / PAGESIZE`), then `osif_malloc_pushpage` returns
`NULL` in the state the reserve attempt left: no uncapped call is made, the host is not
invoked beyond the at most one invocation of the reserve attempt, and the allocated total
and `lastsuccess` are as before the call. -/
theorem osif_malloc_pushpage_stall (env : Env) (s : State) (size : Nat)
    (hfail : (osif_malloc_reserve_cap env s size).1 = NULL)
    (hno : sub64 env.zfs_lbolt s.lastsuccess ≤ s.tunable_osif_pushpage_waitlimit ∨
      env.vm_page_free_wanted ≠ 0 ∨ env.vm_page_free_count ≤ size / env.PAGESIZE) :
    (osif_malloc_pushpage env s size).1 = NULL ∧
    (osif_malloc_pushpage env s size).2 = (osif_malloc_reserve_cap env s size).2 ∧
    (osif_malloc_pushpage env s size).2.stat_osif_uncapped_calls =
      s.stat_osif_uncapped_calls ∧
    ((osif_malloc_pushpage env s size).2.kma_calls = s.kma_calls ∨
      (osif_malloc_pushpage env s size).2.kma_calls = s.kma_calls + 1) ∧
    (osif_malloc_pushpage env s size).2.segkmem_total_mem_allocated =
      s.segkmem_total_mem_allocated ∧
    (osif_malloc_pushpage env s size).2.lastsuccess = s.lastsuccess := by
  obtain ⟨hls, hwl, huc, -⟩ := osif_malloc_reserve_cap_frame env s size
  obtain ⟨hnull, -, hk⟩ := osif_malloc_reserve_cap_outcome env s size
  have hpp : osif_malloc_pushpage env s size =
      (NULL, (osif_malloc_reserve_cap env s size).2) := by
    unfold osif_malloc_pushpage
    dsimp only
    rw [if_neg (by simp [hfail]), if_neg (by rw [hls, hwl]; omega)]
  rw [hpp]
  exact ⟨rfl, rfl, huc, hk, hnull hfail, hls⟩

/-- C5, evaluated: as in the forced case but at tick 500, within the wait limit of 1000:
the request fails, the host has not been asked at all, and the total stays 2000. -/
theorem osif_malloc_pushpage_stall_witness :
    (osif_malloc_pushpage (hostOk 1000 500 0 100) (budget 2000 1000 1100) 4096).1 = NULL ∧
    (osif_malloc_pushpage (hostOk 1000 500 0 100)
      (budget 2000 1000 1100) 4096).2.segkmem_total_mem_allocated = 2000 ∧
    (osif_malloc_pushpage (hostOk 1000 500 0 100) (budget 2000 1000 1100) 4096).2.lastsuccess
      = 0 :=
  ⟨(osif_malloc_pushpage_stall (hostOk 1000 500 0 100) (budget 2000 1000 1100) 4096
      (by decide) (Or.inl (by decide))).1,
   (osif_malloc_pushpage_stall (hostOk 1000 500 0 100) (budget 2000 1000 1100) 4096
      (by decide) (Or.inl (by decide))).2.2.2.2.1,
   (osif_malloc_pushpage_stall (hostOk 1000 500 0 100) (budget 2000 1000 1100) 4096
      (by decide) (Or.inl (by decide))).2.2.2.2.2⟩

/-! ## The uncapped strategy -/

/-- C6. Uncapped bypass: whatever the allocated total, the cap and the threshold,
`osif_malloc_uncapped` invokes the host allocator exactly once, returns a non-null
address exactly when that invocation succeeds (namely the address the host stored), and
never changes the denial counter. -/
theorem osif_malloc_uncapped_bypass (env : Env) (s : State) (size : Nat) :
    (osif_malloc_uncapped env s size).2.kma_calls = s.kma_calls + 1 ∧
    ((osif_malloc_uncapped env s size).1 ≠ NULL ↔
      (env.kernel_memory_allocate s.kma_calls size).kr = KERN_SUCCESS) ∧
    ((env.kernel_memory_allocate s.kma_calls size).kr = KERN_SUCCESS →
      (osif_malloc_uncapped env s size).1 =
        (env.kernel_memory_allocate s.kma_calls size).tr) ∧
    (osif_malloc_uncapped env s size).2.stat_osif_malloc_denied =
      s.stat_osif_malloc_denied := by
  obtain ⟨h1, h2, h3, -, -, -, h7⟩ := osif_malloc_uncapped_outcome env s size
  exact ⟨h1, h2, fun hk => (h3 hk).1, h7⟩

/-- C6, evaluated: far above cap and threshold, an uncapped request is still granted. -/
theorem osif_malloc_uncapped_bypass_witness :
    (osif_malloc_uncapped (hostOk 1000 0 0 0) (budget 5000 1000 1100) 4096).1 = 4096 :=
  (osif_malloc_uncapped_bypass (hostOk 1000 0 0 0) (budget 5000 1000 1100) 4096).2.2.1 rfl

/-! ## The dispatcher -/

/-- A flag that lies in the low byte is set in the low byte of a word exactly when it is
set in the word. -/
theorem low_byte_land (v f : Nat) (h : f < 256) : (v % 256) &&& f = v &&& f := by
  have h1 : v % 256 = v &&& (2 ^ 8 - 1) := (Nat.and_pow_two_sub_one_eq_mod v 8).symm
  have h2 : f &&& (2 ^ 8 - 1) = f := by
    rw [Nat.and_pow_two_sub_one_eq_mod]
    exact Nat.mod_eq_of_lt h
  rw [h1, Nat.land_assoc, Nat.land_comm (2 ^ 8 - 1) f, h2]

/-- C7. Dispatch order of `segkmem_alloc`, for flags where `VM_SLEEP` is the empty word
and `VM_PANIC`, `VM_PUSHPAGE` lie in the low byte: a word with `VM_PANIC` set runs the
uncapped strategy, whatever else is set; otherwise a word with `VM_PUSHPAGE` set runs
the pushpage strategy; otherwise the capped strategy runs (on the entry state, or on the
entry state with the default-calls counter advanced). A request equal to `VM_SLEEP` runs
the capped strategy on the entry state and leaves the uncapped-calls counter alone. -/
theorem segkmem_alloc_dispatch (F : VmFlags) (env : Env) (s : State) (size vmflag : Nat)
    (hsleep : F.VM_SLEEP = 0) (hpanic : F.VM_PANIC < 256) (hpush : F.VM_PUSHPAGE < 256) :
    (vmflag &&& F.VM_PANIC ≠ 0 →
      segkmem_alloc F env s size vmflag = osif_malloc_uncapped env s size) ∧
    (vmflag &&& F.VM_PANIC = 0 → vmflag &&& F.VM_PUSHPAGE ≠ 0 →
      segkmem_alloc F env s size vmflag = osif_malloc_pushpage env s size) ∧
    (vmflag &&& F.VM_PANIC = 0 → vmflag &&& F.VM_PUSHPAGE = 0 →
      segkmem_alloc F env s size vmflag = osif_malloc_capped env s size ∨
      segkmem_alloc F env s size vmflag = osif_malloc_capped env
        { s with stat_osif_default_calls := add64 s.stat_osif_default_calls 1 } size) ∧
    (vmflag = F.VM_SLEEP →
      segkmem_alloc F env s size vmflag = osif_malloc_capped env s size ∧
      (segkmem_alloc F env s size vmflag).2.stat_osif_uncapped_calls =
        s.stat_osif_uncapped_calls) := by
  have hP := low_byte_land vmflag F.VM_PANIC hpanic
  have hU := low_byte_land vmflag F.VM_PUSHPAGE hpush
  refine ⟨fun h => ?_, fun h1 h2 => ?_, fun h1 h2 => ?_, fun h => ?_⟩
  · have hne : vmflag ≠ F.VM_SLEEP := by
      intro h0
      rw [h0, hsleep] at h
      exact h (Nat.zero_and _)
    unfold segkmem_alloc
    dsimp only
    rw [if_neg hne, hP, if_pos h]
  · have hne : vmflag ≠ F.VM_SLEEP := by
      intro h0
      rw [h0, hsleep] at h2
      exact h2 (Nat.zero_and _)
    unfold segkmem_alloc
    dsimp only
    rw [if_neg hne, hP, hU, if_neg (not_not.mpr h1), if_pos h2]
  · unfold segkmem_alloc
    dsimp only
    rw [hP, hU, if_neg (not_not.mpr h1), if_neg (not_not.mpr h2)]
    split_ifs <;> simp
  · have hc : segkmem_alloc F env s size vmflag = osif_malloc_capped env s size := by
      unfold segkmem_alloc
      rw [if_pos h]
    refine ⟨hc, ?_⟩
    rw [hc]
    unfold osif_malloc_capped kernel_memory_allocate lazy_cap
    dsimp only
    split_ifs <;> rfl

/-- C7, evaluated with the illumos flag values: `VM_PANIC | VM_PUSHPAGE | VM_NOSLEEP`
goes to the uncapped strategy, `VM_PUSHPAGE | VM_NORMALPRI` to pushpage, and `VM_SLEEP`
to the capped strategy. -/
theorem segkmem_alloc_dispatch_witness :
    segkmem_alloc illumosFlags (hostOk 1000 0 0 0) (budget 5000 1000 1100) 4096 7 =
      osif_malloc_uncapped (hostOk 1000 0 0 0) (budget 5000 1000 1100) 4096 ∧
    segkmem_alloc illumosFlags (hostOk 1000 0 0 0) (budget 5000 1000 1100) 4096 12 =
      osif_malloc_pushpage (hostOk 1000 0 0 0) (budget 5000 1000 1100) 4096 ∧
    segkmem_alloc illumosFlags (hostOk 1000 0 0 0) (budget 5000 1000 1100) 4096 0 =
      osif_malloc_capped (hostOk 1000 0 0 0) (budget 5000 1000 1100) 4096 :=
  ⟨(segkmem_alloc_dispatch illumosFlags (hostOk 1000 0 0 0) (budget 5000 1000 1100) 4096 7
      rfl (by decide) (by decide)).1 (by decide),
   (segkmem_alloc_dispatch illumosFlags (hostOk 1000 0 0 0) (budget 5000 1000 1100) 4096 12
      rfl (by decide) (by decide)).2.1 (by decide) (by decide),
   ((segkmem_alloc_dispatch illumosFlags (hostOk 1000 0 0 0) (budget 5000 1000 1100) 4096 0
      rfl (by decide) (by decide)).2.2.2 rfl).1⟩

/-! ## The release path -/

/-- C8. Release symmetry: `segkmem_free` and `segkmem_zio_free` (both `osif_free`) take
`size` off the allocated total in 64-bit arithmetic (exactly `size` when `size` does not
exceed a total below `2^64`), advance the free counter by one and invoke the host release
once, whatever handle is passed; the cap, the threshold and the success, fail and denied
counters are unchanged. -/
theorem segkmem_free_release (s : State) (inaddr : Ptr) (size : Nat) :
    segkmem_zio_free s inaddr size = segkmem_free s inaddr size ∧
    ((segkmem_free s inaddr size).segkmem_total_mem_allocated : Int) =
      ((s.segkmem_total_mem_allocated : Int) - (size : Int)) % 2 ^ 64 ∧
    (size ≤ s.segkmem_total_mem_allocated → s.segkmem_total_mem_allocated < 2 ^ 64 →
      (segkmem_free s inaddr size).segkmem_total_mem_allocated =
        s.segkmem_total_mem_allocated - size) ∧
    (segkmem_free s inaddr size).stat_osif_free = (s.stat_osif_free + 1) % 2 ^ 64 ∧
    (segkmem_free s inaddr size).kmem_free_calls = s.kmem_free_calls + 1 ∧
    (segkmem_free s inaddr size).tunable_osif_memory_cap = s.tunable_osif_memory_cap ∧
    (segkmem_free s inaddr size).tunable_osif_memory_reserve =
      s.tunable_osif_memory_reserve ∧
    (segkmem_free s inaddr size).stat_osif_malloc_success = s.stat_osif_malloc_success ∧
    (segkmem_free s inaddr size).stat_osif_malloc_fail = s.stat_osif_malloc_fail ∧
    (segkmem_free s inaddr size).stat_osif_malloc_denied = s.stat_osif_malloc_denied := by
  have hsub : (segkmem_free s inaddr size).segkmem_total_mem_allocated =
      (s.segkmem_total_mem_allocated + (18446744073709551616 - size % 18446744073709551616))
        % 18446744073709551616 := rfl
  refine ⟨rfl, ?_, ?_, rfl, rfl, rfl, rfl, rfl, rfl, rfl⟩
  · rw [hsub]
    omega
  · intro h1 h2
    rw [hsub]
    omega

/-- C8, evaluated: releasing 4096 bytes from a total of 5000 leaves 904 and one free
counted. -/
theorem segkmem_free_release_witness :
    (segkmem_free (budget 5000 1000 1100) 4096 4096).segkmem_total_mem_allocated = 904 :=
  (segkmem_free_release (budget 5000 1000 1100) 4096 4096).2.2.1 (by decide) (by decide)

/-! ## No partial allocation, and conservation of the budget -/

/-- The outcome of the capped strategy on the allocated total: unchanged on `NULL`, grown
by `size` otherwise. -/
theorem osif_malloc_capped_outcome (env : Env) (s : State) (size : Nat) :
    ((osif_malloc_capped env s size).1 = NULL →
      (osif_malloc_capped env s size).2.segkmem_total_mem_allocated =
        s.segkmem_total_mem_allocated) ∧
    ((osif_malloc_capped env s size).1 ≠ NULL →
      (osif_malloc_capped env s size).2.segkmem_total_mem_allocated =
        add64 s.segkmem_total_mem_allocated size) := by
  have hv := env.kma_valid s.kma_calls size
  unfold osif_malloc_capped kernel_memory_allocate lazy_cap
  dsimp only
  split_ifs <;> simp_all [NULL]

/-- The outcome of the pushpage strategy on the allocated total: unchanged on `NULL`,
grown by `size` otherwise. -/
theorem osif_malloc_pushpage_outcome (env : Env) (s : State) (size : Nat) :
    ((osif_malloc_pushpage env s size).1 = NULL →
      (osif_malloc_pushpage env s size).2.segkmem_total_mem_allocated =
        s.segkmem_total_mem_allocated) ∧
    ((osif_malloc_pushpage env s size).1 ≠ NULL →
      (osif_malloc_pushpage env s size).2.segkmem_total_mem_allocated =
        add64 s.segkmem_total_mem_allocated size) := by
  obtain ⟨hnull, hsome, -⟩ := osif_malloc_reserve_cap_outcome env s size
  have hu := osif_malloc_uncapped_outcome env
    { (osif_malloc_reserve_cap env s size).2 with lastsuccess := env.zfs_lbolt } size
  unfold osif_malloc_pushpage
  dsimp only
  by_cases hr : (osif_malloc_reserve_cap env s size).1 = NULL
  · rw [if_neg (by simp [hr])]
    split_ifs with hforce
    · refine ⟨fun h => ?_, fun h => ?_⟩
      · rw [hu.2.2.2.1 h]
        exact hnull hr
      · rw [(hu.2.2.1 (hu.2.1.mp h)).2]
        exact congrArg (fun x => add64 x size) (hnull hr)
    · exact ⟨fun _ => hnull hr, fun h => absurd rfl h⟩
  · rw [if_pos hr]
    exact ⟨fun h => absurd h hr, fun _ => (hsome hr).1⟩

/-- Every strategy either returns `NULL` and leaves the allocated total, or returns an
address and adds `size` to it in 64-bit arithmetic. -/
theorem strategy_outcome (st : Strategy) (env : Env) (s : State) (size : Nat) :
    ((st.run env s size).1 = NULL →
      (st.run env s size).2.segkmem_total_mem_allocated = s.segkmem_total_mem_allocated) ∧
    ((st.run env s size).1 ≠ NULL →
      (st.run env s size).2.segkmem_total_mem_allocated =
        add64 s.segkmem_total_mem_allocated size) := by
  cases st
  · obtain ⟨-, h2, h3, h4, -⟩ := osif_malloc_uncapped_outcome env s size
    exact ⟨h4, fun h => (h3 (h2.mp h)).2⟩
  · exact osif_malloc_capped_outcome env s size
  · obtain ⟨h1, h2, -⟩ := osif_malloc_reserve_cap_outcome env s size
    exact ⟨h1, fun h => (h2 h).1⟩
  · exact osif_malloc_pushpage_outcome env s size

/-- C10. No partial allocation: for each of the four strategies, every state, host and
size, a call that returns `NULL` leaves the allocated total unchanged, and a call that
returns an address leaves it at the old total plus `size` modulo `2^64`. -/
theorem no_partial_allocation (st : Strategy) (env : Env) (s : State) (size : Nat) :
    ((st.run env s size).1 = NULL →
      (st.run env s size).2.segkmem_total_mem_allocated = s.segkmem_total_mem_allocated) ∧
    ((st.run env s size).1 ≠ NULL →
      (st.run env s size).2.segkmem_total_mem_allocated =
        (s.segkmem_total_mem_allocated + size) % 2 ^ 64) :=
  strategy_outcome st env s size

/-- C10, evaluated: a denied capped request leaves the total at 900, and a pushpage
request granted by the forced path raises 2000 to 6096. -/
theorem no_partial_allocation_witness :
    (osif_malloc_capped (hostOk 1000 0 0 0)
      (budget 900 1000 1100) 200).2.segkmem_total_mem_allocated = 900 ∧
    (osif_malloc_pushpage (hostOk 1000 5000 0 100)
      (budget 2000 1000 1100) 4096).2.segkmem_total_mem_allocated = 6096 :=
  ⟨(no_partial_allocation .Capped (hostOk 1000 0 0 0) (budget 900 1000 1100) 200).1
      (by decide),
   (no_partial_allocation .Pushpage (hostOk 1000 5000 0 100) (budget 2000 1000 1100) 4096).2
      (by decide)⟩

/-- A sequence whose prefixes are bounded starts from a bounded record. -/
theorem bounded_head (c : Ledger) (ops : List Op) (h : c.bounded ops = true) :
    c.outstanding_bytes < 2 ^ 64 := by
  cases ops with
  | nil => simpa [Ledger.bounded] using h
  | cons op ops =>
    simp only [Ledger.bounded, Bool.and_eq_true, decide_eq_true_eq] at h
    exact h.1

/-- Taking one listed grant off a list of grants takes its size off the sum of sizes. -/
theorem sum_sizes_erase (x : Ptr × Nat) : ∀ (l : List (Ptr × Nat)), x ∈ l →
    x.2 + ((l.erase x).map Prod.snd).sum = (l.map Prod.snd).sum := by
  intro l
  induction l with
  | nil => intro h; simp at h
  | cons y l ih =>
    intro h
    rw [List.erase_cons]
    by_cases hy : (y == x) = true
    · rw [if_pos hy]
      have : y = x := eq_of_beq hy
      subst this
      simp
    · rw [if_neg hy]
      have hne : x ≠ y := fun e => hy (by rw [e]; exact beq_self_eq_true y)
      have hmem : x ∈ l := by
        rcases List.mem_cons.mp h with e | e
        · exact absurd e hne
        · exact e
      have := ih hmem
      simp only [List.map_cons, List.sum_cons]
      omega

/-- The size of an outstanding grant is part of the outstanding sum. -/
theorem outstanding_erase (c : Ledger) (buf : Ptr) (size : Nat)
    (h : (buf, size) ∈ c.outstanding) :
    size + ((c.outstanding.erase (buf, size)).map Prod.snd).sum = c.outstanding_bytes :=
  sum_sizes_erase (buf, size) c.outstanding h

/-- One matched call keeps the allocated total congruent to the outstanding sum. -/
theorem step_conserves (c : Ledger) (op : Op)
    (hinv : c.state.segkmem_total_mem_allocated = c.outstanding_bytes % 2 ^ 64)
    (hop : ∀ buf size, op = .free buf size → (buf, size) ∈ c.outstanding) :
    (c.step op).state.segkmem_total_mem_allocated = (c.step op).outstanding_bytes % 2 ^ 64 := by
  cases op with
  | alloc st env size =>
    obtain ⟨h1, h2⟩ := strategy_outcome st env c.state size
    simp only [Ledger.step]
    split_ifs with hr
    · simp only [Ledger.outstanding_bytes, List.map_cons, List.sum_cons]
      rw [h2 hr, hinv]
      simp only [add64, Ledger.outstanding_bytes, UINT64_MOD]
      omega
    · simp only [Ledger.outstanding_bytes]
      rw [h1 (not_not.mp hr), hinv]
      rfl
  | free buf size =>
    have he := outstanding_erase c buf size (hop buf size rfl)
    have hsub : (segkmem_free c.state buf size).segkmem_total_mem_allocated =
        (c.state.segkmem_total_mem_allocated +
          (18446744073709551616 - size % 18446744073709551616)) % 18446744073709551616 := rfl
    simp only [Ledger.step, Ledger.outstanding_bytes]
    rw [hsub, hinv]
    omega

/-- Conservation along a matched, bounded sequence, from any record in which the allocated
total is the outstanding sum. -/
theorem run_conserves (ops : List Op) : ∀ (c : Ledger),
    c.state.segkmem_total_mem_allocated = c.outstanding_bytes →
    c.matched ops = true → c.bounded ops = true → ∀ k,
      (c.run (ops.take k)).state.segkmem_total_mem_allocated =
        (c.run (ops.take k)).outstanding_bytes ∧
      ∀ buf size, ops.get? k = some (.free buf size) →
        size ≤ (c.run (ops.take k)).state.segkmem_total_mem_allocated := by
  induction ops with
  | nil =>
    intro c hinv _ _ k
    simp [Ledger.run, hinv]
  | cons op ops ih =>
    intro c hinv hm hb k
    have hc := bounded_head c (op :: ops) hb
    have hop : ∀ buf size, op = .free buf size → (buf, size) ∈ c.outstanding := by
      intro buf size h
      subst h
      simp only [Ledger.matched, Bool.and_eq_true] at hm
      simpa using hm.1
    cases k with
    | zero =>
      refine ⟨by simpa [Ledger.run] using hinv, fun buf size h => ?_⟩
      have hop1 : op = .free buf size := by simpa using h
      have he := outstanding_erase c buf size (hop buf size hop1)
      simp only [List.take_zero, Ledger.run, List.foldl_nil]
      omega
    | succ k =>
      have hb1 : (c.step op).bounded ops = true := by
        simp only [Ledger.bounded, Bool.and_eq_true] at hb
        exact hb.2
      have hm1 : (c.step op).matched ops = true := by
        cases op with
        | alloc st env size => simpa [Ledger.matched] using hm
        | free buf size =>
          simp only [Ledger.matched, Bool.and_eq_true] at hm
          exact hm.2
      have hstep := step_conserves c op
        (by rw [hinv]; exact (Nat.mod_eq_of_lt hc).symm) hop
      have hc1 := bounded_head (c.step op) ops hb1
      rw [Nat.mod_eq_of_lt hc1] at hstep
      have := ih (c.step op) hstep hm1 hb1 k
      simpa [Ledger.run] using this

/-- C9. Budget conservation: from a state with nothing allocated and nothing outstanding,
along every sequence of strategy calls (any strategy, any host) and releases in which each
release names an outstanding grant with its size, and in which the outstanding sizes sum
to less than `2^64` after every prefix: after every prefix the allocated total equals the
sum of the sizes of the grants still outstanding, and every release finds an allocated
total at least as large as its size, so the 64-bit subtraction does not wrap. -/
theorem budget_conservation (s0 : State) (ops : List Op)
    (h0 : s0.segkmem_total_mem_allocated = 0)
    (hm : Ledger.matched { state := s0, outstanding := [] } ops = true)
    (hb : Ledger.bounded { state := s0, outstanding := [] } ops = true) :
    (Ledger.run { state := s0, outstanding := [] } ops).state.segkmem_total_mem_allocated =
      (Ledger.run { state := s0, outstanding := [] } ops).outstanding_bytes ∧
    ∀ k,
      (Ledger.run { state := s0, outstanding := [] }
          (ops.take k)).state.segkmem_total_mem_allocated =
        (Ledger.run { state := s0, outstanding := [] } (ops.take k)).outstanding_bytes ∧
      ∀ buf size, ops.get? k = some (.free buf size) →
        size ≤ (Ledger.run { state := s0, outstanding := [] }
          (ops.take k)).state.segkmem_total_mem_allocated := by
  have hall := run_conserves ops { state := s0, outstanding := [] }
    (by simp [Ledger.outstanding_bytes, h0]) hm hb
  refine ⟨?_, hall⟩
  have := (hall ops.length).1
  rwa [List.take_length] at this

/-- C9, evaluated on `sampleOps`: after the four calls 12288 bytes are allocated, the sum of
the two grants still outstanding. -/
theorem budget_conservation_witness :
    (Ledger.run { state := budget 0 0 0, outstanding := [] }
      sampleOps).state.segkmem_total_mem_allocated = 12288 ∧
    (Ledger.run { state := budget 0 0 0, outstanding := [] } sampleOps).outstanding_bytes =
      12288 :=
  ⟨((budget_conservation (budget 0 0 0) sampleOps rfl (by decide) (by decide)).1).trans
      (by decide),
   by decide⟩

/-! ## Outcome accounting -/

/-- Advancing a 64-bit counter by one changes it. -/
theorem add64_one_ne (x : Nat) : add64 x 1 ≠ x := by
  unfold add64
  simp only [UINT64_MOD]
  omega

/-- C11. Outcome accounting of the uncapped, capped and reserve strategies: every call is
in exactly one of three cases. Granted: a non-null address is returned after one successful
host invocation and only the success counter advances, by one. Failed: `NULL` is returned
after one unsuccessful host invocation and only the fail counter advances, by one.
Denied: `NULL` is returned without a host invocation and only the denied counter advances,
by one. Hence the denied counter advances exactly when the host was not invoked, the fail
counter exactly when the host was invoked and failed, and the success counter exactly when
an address is returned. -/
theorem outcome_accounting (st : Strategy) (env : Env) (s : State) (size : Nat)
    (hst : st ≠ .Pushpage) :
    Accounted env s size (st.run env s size) ∧
    ((st.run env s size).2.stat_osif_malloc_denied = add64 s.stat_osif_malloc_denied 1 ↔
      (st.run env s size).2.kma_calls = s.kma_calls) ∧
    ((st.run env s size).2.stat_osif_malloc_fail = add64 s.stat_osif_malloc_fail 1 ↔
      ((st.run env s size).2.kma_calls = s.kma_calls + 1 ∧
        (env.kernel_memory_allocate s.kma_calls size).kr ≠ KERN_SUCCESS)) ∧
    ((st.run env s size).2.stat_osif_malloc_success = add64 s.stat_osif_malloc_success 1 ↔
      (st.run env s size).1 ≠ NULL) := by
  have hv := env.kma_valid s.kma_calls size
  have hd := add64_one_ne s.stat_osif_malloc_denied
  have hf := add64_one_ne s.stat_osif_malloc_fail
  have hs := add64_one_ne s.stat_osif_malloc_success
  have hacc : Accounted env s size (st.run env s size) := by
    unfold Accounted
    cases st with
    | Uncapped =>
      simp only [Strategy.run]
      unfold osif_malloc_uncapped kernel_memory_allocate
      dsimp only
      split_ifs <;> simp_all [NULL]
    | Capped =>
      simp only [Strategy.run]
      unfold osif_malloc_capped kernel_memory_allocate lazy_cap
      dsimp only
      split_ifs <;> simp_all [NULL]
    | Reserve =>
      simp only [Strategy.run]
      unfold osif_malloc_reserve_cap kernel_memory_allocate lazy_reserve lazy_cap
      dsimp only
      split_ifs <;> simp_all [NULL]
    | Pushpage => exact absurd rfl hst
  refine ⟨hacc, ?_⟩
  unfold Accounted at hacc
  rcases hacc with h | h | h
  · obtain ⟨h1, h2, h3, h4, h5, h6⟩ := h
    rw [h4, h5, h6]
    exact ⟨⟨fun e => absurd e.symm hd, fun e => by omega⟩,
      ⟨fun e => absurd e.symm hf, fun e => absurd h3 e.2⟩, ⟨fun _ => h1, fun _ => rfl⟩⟩
  · obtain ⟨h1, h2, h3, h4, h5, h6⟩ := h
    rw [h4, h5, h6]
    exact ⟨⟨fun e => absurd e.symm hd, fun e => by omega⟩,
      ⟨fun _ => ⟨h2, h3⟩, fun _ => rfl⟩, ⟨fun e => absurd e.symm hs, fun e => absurd h1 e⟩⟩
  · obtain ⟨h1, h2, h3, h4, h5⟩ := h
    rw [h3, h4, h5]
    exact ⟨⟨fun _ => h2, fun _ => rfl⟩,
      ⟨fun e => absurd e.symm hf, fun e => by omega⟩,
      ⟨fun e => absurd e.symm hs, fun e => absurd h1 e⟩⟩

/-- C11, evaluated: a capped request denied at the cap advances only the denied counter,
and a reserve request on a failing host only the fail counter. -/
theorem outcome_accounting_witness :
    (osif_malloc_capped (hostOk 1000 0 0 0)
      (budget 900 1000 1100) 200).2.stat_osif_malloc_denied = 1 ∧
    (osif_malloc_reserve_cap (hostFail 1000 0 0 0)
      (budget 900 1000 1100) 100).2.stat_osif_malloc_fail = 1 :=
  ⟨((outcome_accounting .Capped (hostOk 1000 0 0 0) (budget 900 1000 1100) 200
      (by decide)).2.1).mpr (by decide),
   ((outcome_accounting .Reserve (hostFail 1000 0 0 0) (budget 900 1000 1100) 100
      (by decide)).2.2.1).mpr ⟨by decide, by decide⟩⟩

/-! ## The two dispatchers -/

/-- C12. The I/O buffer dispatcher has the decision table of the general one: for every
flag constants, host, state, size and flag word `segkmem_zio_alloc` returns the result and
the state of `segkmem_alloc` (the arena argument is read by neither), and
`segkmem_zio_free` leaves the state of `segkmem_free`. -/
theorem segkmem_zio_alloc_eq_segkmem_alloc (F : VmFlags) (env : Env) (s : State)
    (size vmflag : Nat) (inaddr : Ptr) (freed : Nat) :
    segkmem_zio_alloc F env s size vmflag = segkmem_alloc F env s size vmflag ∧
    segkmem_zio_free s inaddr freed = segkmem_free s inaddr freed :=
  ⟨rfl, rfl⟩

/-! ## The admission test of the reserve strategy -/

/-- The reserve strategy denies without a host invocation exactly when the allocated
total plus `size` (64-bit) exceeds the threshold left by the lazy configuration. -/
theorem osif_malloc_reserve_cap_denies_iff (env : Env) (s : State) (size : Nat) :
    ((osif_malloc_reserve_cap env s size).1 = NULL ∧
      (osif_malloc_reserve_cap env s size).2.kma_calls = s.kma_calls) ↔
    add64 s.segkmem_total_mem_allocated size >
      (lazy_reserve env (lazy_cap env s)).tunable_osif_memory_reserve := by
  unfold osif_malloc_reserve_cap kernel_memory_allocate lazy_reserve lazy_cap
  dsimp only
  split_ifs <;> simp_all [NULL]

/-- The capped strategy denies without a host invocation exactly when the allocated total
plus `size` (64-bit) exceeds the lazily initialised cap, the cap is non-zero and something
is allocated. -/
theorem osif_malloc_capped_denies_iff (env : Env) (s : State) (size : Nat) :
    ((osif_malloc_capped env s size).1 = NULL ∧
      (osif_malloc_capped env s size).2.kma_calls = s.kma_calls) ↔
    (add64 s.segkmem_total_mem_allocated size > (lazy_cap env s).tunable_osif_memory_cap ∧
      (lazy_cap env s).tunable_osif_memory_cap > 0 ∧ s.segkmem_total_mem_allocated > 0) := by
  unfold osif_malloc_capped kernel_memory_allocate lazy_cap
  dsimp only
  split_ifs <;> simp_all [NULL] <;> omega

/-- C13 as stated fails where the exemptions of the capped strategy apply. With nothing
allocated, cap and threshold 0 and the host total unknown, a reserve request of 4096 is
denied without a host invocation, while the capped strategy, in the state with the
threshold in place of the cap, forwards it. The same happens with a configured threshold:
with nothing allocated, threshold 1100 and a request of 2000. -/
theorem reserve_denies_where_capped_forwards :
    ((osif_malloc_reserve_cap (hostOk 0 0 0 0) (budget 0 0 0) 4096).1 = NULL ∧
      (osif_malloc_reserve_cap (hostOk 0 0 0 0) (budget 0 0 0) 4096).2.kma_calls = 0 ∧
      (osif_malloc_capped (hostOk 0 0 0 0)
        { budget 0 0 0 with
          tunable_osif_memory_cap := (budget 0 0 0).tunable_osif_memory_reserve } 4096).1
        = 4096 ∧
      (osif_malloc_capped (hostOk 0 0 0 0)
        { budget 0 0 0 with
          tunable_osif_memory_cap := (budget 0 0 0).tunable_osif_memory_reserve }
        4096).2.kma_calls = 1) ∧
    ((osif_malloc_reserve_cap (hostOk 1000 0 0 0) (budget 0 1000 1100) 2000).1 = NULL ∧
      (osif_malloc_reserve_cap (hostOk 1000 0 0 0) (budget 0 1000 1100) 2000).2.kma_calls = 0 ∧
      (osif_malloc_capped (hostOk 1000 0 0 0)
        { budget 0 1000 1100 with
          tunable_osif_memory_cap := (budget 0 1000 1100).tunable_osif_memory_reserve }
        2000).1 = 4096 ∧
      (osif_malloc_capped (hostOk 1000 0 0 0)
        { budget 0 1000 1100 with
          tunable_osif_memory_cap := (budget 0 1000 1100).tunable_osif_memory_reserve }
        2000).2.kma_calls = 1) := by
  decide

/-- C13, amended. With something allocated and a non-zero threshold `R` (the threshold as
the lazy configuration at the top of the call leaves it), `osif_malloc_reserve_cap` denies
the request without invoking the host exactly when `osif_malloc_capped` would deny it in
the state with `R` in place of the cap; both deny exactly when the allocated total plus
`size` (64-bit) exceeds `R`. -/
theorem osif_malloc_reserve_cap_admission (env : Env) (s : State) (size : Nat)
    (hA : 0 < s.segkmem_total_mem_allocated)
    (hR : 0 < (lazy_reserve env (lazy_cap env s)).tunable_osif_memory_reserve) :
    (((osif_malloc_reserve_cap env s size).1 = NULL ∧
        (osif_malloc_reserve_cap env s size).2.kma_calls = s.kma_calls) ↔
      ((osif_malloc_capped env
          { s with tunable_osif_memory_cap :=
              (lazy_reserve env (lazy_cap env s)).tunable_osif_memory_reserve } size).1 = NULL ∧
        (osif_malloc_capped env
          { s with tunable_osif_memory_cap :=
              (lazy_reserve env (lazy_cap env s)).tunable_osif_memory_reserve }
          size).2.kma_calls = s.kma_calls)) ∧
    (((osif_malloc_reserve_cap env s size).1 = NULL ∧
        (osif_malloc_reserve_cap env s size).2.kma_calls = s.kma_calls) ↔
      add64 s.segkmem_total_mem_allocated size >
        (lazy_reserve env (lazy_cap env s)).tunable_osif_memory_reserve) := by
  have hres := osif_malloc_reserve_cap_denies_iff env s size
  have hcap := osif_malloc_capped_denies_iff env
    { s with tunable_osif_memory_cap :=
        (lazy_reserve env (lazy_cap env s)).tunable_osif_memory_reserve } size
  have hkeep : (lazy_cap env
      { s with tunable_osif_memory_cap :=
          (lazy_reserve env (lazy_cap env s)).tunable_osif_memory_reserve }).tunable_osif_memory_cap
      = (lazy_reserve env (lazy_cap env s)).tunable_osif_memory_reserve := by
    generalize (lazy_reserve env (lazy_cap env s)).tunable_osif_memory_reserve = R at hR
    unfold lazy_cap
    rw [if_neg (by dsimp only; omega)]
  rw [hkeep] at hcap
  refine ⟨?_, hres⟩
  rw [hres]
  exact (hcap.trans ⟨fun h => h.1, fun h => ⟨h, hR, hA⟩⟩).symm

/-- C13 (amended), evaluated: with 1000 allocated and threshold 1100 a reserve request of
200 is denied, as the capped strategy denies it under a cap of 1100. -/
theorem osif_malloc_reserve_cap_admission_witness :
    (osif_malloc_capped (hostOk 1000 0 0 0)
      { budget 1000 1000 1100 with tunable_osif_memory_cap := 1100 } 200).1 = NULL :=
  (((osif_malloc_reserve_cap_admission (hostOk 1000 0 0 0) (budget 1000 1000 1100) 200
      (by decide) (by decide)).1).mp ⟨by decide, by decide⟩).1

/-! ## The configuration: cap and threshold -/

/-- The uncapped strategy does not touch the configuration. -/
theorem osif_malloc_uncapped_config (env : Env) (s : State) (size : Nat) :
    (osif_malloc_uncapped env s size).2.tunable_osif_memory_cap = s.tunable_osif_memory_cap ∧
    (osif_malloc_uncapped env s size).2.tunable_osif_memory_reserve =
      s.tunable_osif_memory_reserve := by
  unfold osif_malloc_uncapped kernel_memory_allocate
  dsimp only
  split_ifs <;> simp

/-- The capped strategy changes the configuration by its lazy initialisation only. -/
theorem osif_malloc_capped_config (env : Env) (s : State) (size : Nat) :
    ConfigStep env.total_memory s (osif_malloc_capped env s size).2 := by
  unfold ConfigStep osif_malloc_capped kernel_memory_allocate lazy_cap
  dsimp only
  split_ifs <;> simp_all

/-- The reserve strategy changes the configuration by its two lazy steps only. -/
theorem osif_malloc_reserve_cap_config (env : Env) (s : State) (size : Nat) :
    ConfigStep env.total_memory s (osif_malloc_reserve_cap env s size).2 := by
  unfold ConfigStep osif_malloc_reserve_cap kernel_memory_allocate lazy_reserve lazy_cap
  dsimp only
  split_ifs <;> simp_all

/-- The pushpage strategy changes the configuration as its reserve attempt does. -/
theorem osif_malloc_pushpage_config (env : Env) (s : State) (size : Nat) :
    ConfigStep env.total_memory s (osif_malloc_pushpage env s size).2 := by
  have hr := osif_malloc_reserve_cap_config env s size
  have hu := osif_malloc_uncapped_config env
    { (osif_malloc_reserve_cap env s size).2 with lastsuccess := env.zfs_lbolt } size
  unfold ConfigStep at hr ⊢
  unfold osif_malloc_pushpage
  dsimp only
  split_ifs
  · exact hr
  · rw [hu.1, hu.2]
    exact hr
  · exact hr

/-- Every strategy changes the configuration by the lazy steps only. -/
theorem strategy_config (st : Strategy) (env : Env) (s : State) (size : Nat) :
    ConfigStep env.total_memory s (st.run env s size).2 := by
  cases st
  · have hu := osif_malloc_uncapped_config env s size
    exact ⟨Or.inl hu.1, Or.inl hu.2⟩
  · exact osif_malloc_capped_config env s size
  · exact osif_malloc_reserve_cap_config env s size
  · exact osif_malloc_pushpage_config env s size

/-- The dispatcher changes the configuration by the lazy steps only. -/
theorem segkmem_alloc_config (F : VmFlags) (env : Env) (s : State) (size vmflag : Nat) :
    ConfigStep env.total_memory s (segkmem_alloc F env s size vmflag).2 := by
  have hd := osif_malloc_capped_config env
    { s with stat_osif_default_calls := add64 s.stat_osif_default_calls 1 } size
  unfold segkmem_alloc
  dsimp only
  split_ifs
  · exact osif_malloc_capped_config env s size
  · exact strategy_config .Uncapped env s size
  · exact osif_malloc_pushpage_config env s size
  · exact osif_malloc_capped_config env s size
  · exact osif_malloc_capped_config env s size
  · exact hd

/-- Every entry made on a host with total `T` changes the configuration by the lazy steps
only; a release does not touch it. -/
theorem call_config (T : Nat) (c : Call) (s : State) (h : c.sees T = true) :
    ConfigStep T s (c.exec s) := by
  cases c with
  | strategy st env size =>
    have hT : env.total_memory = T := by simpa [Call.sees] using h
    rw [← hT]
    exact strategy_config st env s size
  | alloc F env size vmflag =>
    have hT : env.total_memory = T := by simpa [Call.sees] using h
    rw [← hT]
    exact segkmem_alloc_config F env s size vmflag
  | zio_alloc F env size vmflag =>
    have hT : env.total_memory = T := by simpa [Call.sees] using h
    rw [← hT]
    exact segkmem_alloc_config F env s size vmflag
  | free inaddr size => exact ⟨Or.inl rfl, Or.inl rfl⟩
  | zio_free inaddr size => exact ⟨Or.inl rfl, Or.inl rfl⟩

/-- Every entry sees some host total. -/
theorem call_sees_some (c : Call) : ∃ T, c.sees T = true := by
  cases c with
  | strategy st env size => exact ⟨env.total_memory, by simp [Call.sees]⟩
  | alloc F env size vmflag => exact ⟨env.total_memory, by simp [Call.sees]⟩
  | zio_alloc F env size vmflag => exact ⟨env.total_memory, by simp [Call.sees]⟩
  | free inaddr size => exact ⟨0, rfl⟩
  | zio_free inaddr size => exact ⟨0, rfl⟩

/-- Without 64-bit overflow of `T + T*10/100`, the threshold computed from `T` is at
least `T`. -/
theorem reserve_value_ge (T : Nat) (hT : T + T * 10 / 100 < 2 ^ 64) : T ≤ reserve_value T := by
  unfold reserve_value add64 mul64 OSIF_RESERVE_PERCENT_ULL
  have h1 : T * 10 % UINT64_MOD / 100 ≤ T * 10 / 100 :=
    Nat.div_le_div_right (Nat.mod_le _ _)
  rw [Nat.mod_eq_of_lt (by simp only [UINT64_MOD]; omega)]
  omega

/-- Along entries made on a host with total `T`, a cap that started at zero is zero or `T`
and a threshold that started at zero is zero or the value computed from `T`. -/
theorem exec_all_config (T : Nat) (calls : List Call) : ∀ (s : State),
    (s.tunable_osif_memory_cap = 0 ∨ s.tunable_osif_memory_cap = T) →
    (s.tunable_osif_memory_reserve = 0 ∨ s.tunable_osif_memory_reserve = reserve_value T) →
    calls.all (Call.sees T) = true →
    ((exec_all s calls).tunable_osif_memory_cap = 0 ∨
      (exec_all s calls).tunable_osif_memory_cap = T) ∧
    ((exec_all s calls).tunable_osif_memory_reserve = 0 ∨
      (exec_all s calls).tunable_osif_memory_reserve = reserve_value T) := by
  induction calls with
  | nil => intro s hc hr _; exact ⟨hc, hr⟩
  | cons c calls ih =>
    intro s hc hr hall
    simp only [List.all_cons, Bool.and_eq_true] at hall
    obtain ⟨hstep1, hstep2⟩ := call_config T c s hall.1
    have hc1 : (c.exec s).tunable_osif_memory_cap = 0 ∨
        (c.exec s).tunable_osif_memory_cap = T := by
      rcases hstep1 with e | ⟨-, e⟩
      · rw [e]; exact hc
      · exact Or.inr e
    have hr1 : (c.exec s).tunable_osif_memory_reserve = 0 ∨
        (c.exec s).tunable_osif_memory_reserve = reserve_value T := by
      rcases hstep2 with e | ⟨-, e⟩
      · rw [e]; exact hr
      · exact Or.inr e
    exact ih (c.exec s) hc1 hr1 hall.2

/-- C14. From a state with cap and threshold zero, after any sequence of entries into the
layer (the four strategies, both dispatchers, both release entry points) made on hosts
whose total-memory figure is a fixed `T` with `T + T*10/100` below `2^64`, the threshold
is at least the cap whenever both are non-zero. -/
theorem reserve_ge_cap_reachable (T : Nat) (s0 : State) (calls : List Call)
    (hT : T + T * 10 / 100 < 2 ^ 64)
    (hcap : s0.tunable_osif_memory_cap = 0) (hres : s0.tunable_osif_memory_reserve = 0)
    (hsees : calls.all (Call.sees T) = true) :
    (exec_all s0 calls).tunable_osif_memory_cap ≠ 0 →
    (exec_all s0 calls).tunable_osif_memory_reserve ≠ 0 →
    (exec_all s0 calls).tunable_osif_memory_cap ≤
      (exec_all s0 calls).tunable_osif_memory_reserve := by
  obtain ⟨h1, h2⟩ := exec_all_config T calls s0 (Or.inl hcap) (Or.inl hres) hsees
  intro hc hr
  rcases h1 with e1 | e1
  · exact absurd e1 hc
  · rcases h2 with e2 | e2
    · exact absurd e2 hr
    · rw [e1, e2]
      exact reserve_value_ge T hT

/-- C14, evaluated on `sampleCalls` with a host total of 1000: the cap ends at 1000 and the
threshold at 1100. -/
theorem reserve_ge_cap_reachable_witness :
    (exec_all (budget 0 0 0) sampleCalls).tunable_osif_memory_cap = 1000 ∧
    (exec_all (budget 0 0 0) sampleCalls).tunable_osif_memory_reserve = 1100 ∧
    (exec_all (budget 0 0 0) sampleCalls).tunable_osif_memory_cap ≤
      (exec_all (budget 0 0 0) sampleCalls).tunable_osif_memory_reserve :=
  ⟨by decide, by decide,
   reserve_ge_cap_reachable 1000 (budget 0 0 0) sampleCalls (by decide) rfl rfl (by decide)
     (by decide) (by decide)⟩

/-- C15. Configuration is fixed once set: in a state with a non-zero cap and a threshold
above it, every entry into the layer (each strategy, each dispatcher, each release entry
point), for every size, host outcome and host total, leaves both the cap and the
threshold unchanged. -/
theorem config_fixed (c : Call) (s : State)
    (hcap : s.tunable_osif_memory_cap ≠ 0)
    (hres : s.tunable_osif_memory_reserve > s.tunable_osif_memory_cap) :
    (c.exec s).tunable_osif_memory_cap = s.tunable_osif_memory_cap ∧
    (c.exec s).tunable_osif_memory_reserve = s.tunable_osif_memory_reserve := by
  obtain ⟨T, hT⟩ := call_sees_some c
  obtain ⟨h1, h2⟩ := call_config T c s hT
  have e1 : (c.exec s).tunable_osif_memory_cap = s.tunable_osif_memory_cap := by
    rcases h1 with e | ⟨e, -⟩
    · exact e
    · exact absurd e hcap
  refine ⟨e1, ?_⟩
  rcases h2 with e | ⟨e, -⟩
  · exact e
  · rw [e1] at e
    omega

/-- C15, evaluated: with cap 1000 and threshold 1100, a pushpage request through the
dispatcher on a host reporting 8000 bytes leaves both where they were. -/
theorem config_fixed_witness :
    (segkmem_alloc illumosFlags (hostOk 8000 5000 0 100)
      (budget 2000 1000 1100) 4096 4).2.tunable_osif_memory_cap = 1000 ∧
    (segkmem_alloc illumosFlags (hostOk 8000 5000 0 100)
      (budget 2000 1000 1100) 4096 4).2.tunable_osif_memory_reserve = 1100 :=
  config_fixed (.alloc illumosFlags (hostOk 8000 5000 0 100) 4096 4) (budget 2000 1000 1100)
    (by decide) (by decide)

/-! ## Pushpage after a successful reserve attempt, and the per-path counters -/

/-- C16. When the reserve attempt inside `osif_malloc_pushpage` returns an address,
pushpage returns exactly that address, sets `lastsuccess` to the tick read in the call,
and the host has been invoked exactly once. For every input a pushpage call invokes the
host at most twice; the function is total, with no loop. -/
theorem osif_malloc_pushpage_reserve_success (env : Env) (s : State) (size : Nat) :
    ((osif_malloc_reserve_cap env s size).1 ≠ NULL →
      (osif_malloc_pushpage env s size).1 = (osif_malloc_reserve_cap env s size).1 ∧
      (osif_malloc_pushpage env s size).2.lastsuccess = env.zfs_lbolt ∧
      (osif_malloc_pushpage env s size).2.kma_calls = s.kma_calls + 1) ∧
    s.kma_calls ≤ (osif_malloc_pushpage env s size).2.kma_calls ∧
    (osif_malloc_pushpage env s size).2.kma_calls ≤ s.kma_calls + 2 := by
  obtain ⟨-, hsome, hk⟩ := osif_malloc_reserve_cap_outcome env s size
  have hu := (osif_malloc_uncapped_outcome env
    { (osif_malloc_reserve_cap env s size).2 with lastsuccess := env.zfs_lbolt } size).1
  unfold osif_malloc_pushpage
  dsimp only at hu ⊢
  split_ifs with h1 h2
  · exact ⟨fun _ => ⟨rfl, rfl, (hsome h1).2.1⟩, by dsimp only; omega, by dsimp only; omega⟩
  · exact ⟨fun h => absurd h h1, by omega, by omega⟩
  · exact ⟨fun h => absurd h h1, by dsimp only; omega, by dsimp only; omega⟩

/-- C16, evaluated: below the threshold the reserve attempt is granted, pushpage returns
its address 4096, stamps the tick 77 and has asked the host once. -/
theorem osif_malloc_pushpage_reserve_success_witness :
    (osif_malloc_pushpage (hostOk 1000 77 0 0) (budget 500 1000 1100) 100).1 = 4096 ∧
    (osif_malloc_pushpage (hostOk 1000 77 0 0) (budget 500 1000 1100) 100).2.lastsuccess = 77 ∧
    (osif_malloc_pushpage (hostOk 1000 77 0 0) (budget 500 1000 1100) 100).2.kma_calls = 1 :=
  ⟨(((osif_malloc_pushpage_reserve_success (hostOk 1000 77 0 0) (budget 500 1000 1100) 100).1
      (by decide)).1).trans (by decide),
   ((osif_malloc_pushpage_reserve_success (hostOk 1000 77 0 0) (budget 500 1000 1100) 100).1
      (by decide)).2.1,
   ((osif_malloc_pushpage_reserve_success (hostOk 1000 77 0 0) (budget 500 1000 1100) 100).1
      (by decide)).2.2⟩

/-- The uncapped strategy leaves the reserve-attempt counter and the default-calls counter
alone. -/
theorem osif_malloc_uncapped_frame (env : Env) (s : State) (size : Nat) :
    (osif_malloc_uncapped env s size).2.stat_osif_cum_reserve_allocs =
      s.stat_osif_cum_reserve_allocs ∧
    (osif_malloc_uncapped env s size).2.stat_osif_default_calls =
      s.stat_osif_default_calls := by
  unfold osif_malloc_uncapped kernel_memory_allocate
  dsimp only
  split_ifs <;> simp

/-- The reserve strategy advances the reserve-attempt counter by one on every call. -/
theorem osif_malloc_reserve_cap_attempts (env : Env) (s : State) (size : Nat) :
    (osif_malloc_reserve_cap env s size).2.stat_osif_cum_reserve_allocs =
      add64 s.stat_osif_cum_reserve_allocs 1 := by
  unfold osif_malloc_reserve_cap kernel_memory_allocate lazy_reserve lazy_cap
  dsimp only
  split_ifs <;> simp

/-- C17. Per-path call counters count calls, not outcomes: for every state, host and
size, `osif_malloc_reserve_cap` advances the reserve-attempt counter by one,
`osif_malloc_uncapped` the uncapped-calls counter by one and `osif_malloc_capped` the
capped-calls counter by one (64-bit), whatever the outcome; and `osif_malloc_pushpage`
advances the reserve-attempt counter by one. -/
theorem call_counters (env : Env) (s : State) (size : Nat) :
    (osif_malloc_reserve_cap env s size).2.stat_osif_cum_reserve_allocs =
      (s.stat_osif_cum_reserve_allocs + 1) % 2 ^ 64 ∧
    (osif_malloc_uncapped env s size).2.stat_osif_uncapped_calls =
      (s.stat_osif_uncapped_calls + 1) % 2 ^ 64 ∧
    (osif_malloc_capped env s size).2.stat_osif_capped_calls =
      (s.stat_osif_capped_calls + 1) % 2 ^ 64 ∧
    (osif_malloc_pushpage env s size).2.stat_osif_cum_reserve_allocs =
      (s.stat_osif_cum_reserve_allocs + 1) % 2 ^ 64 := by
  have hr := osif_malloc_reserve_cap_attempts env s size
  refine ⟨hr, ?_, ?_, ?_⟩
  · exact (osif_malloc_uncapped_outcome env s size).2.2.2.2.2.1
  · unfold osif_malloc_capped kernel_memory_allocate lazy_cap
    dsimp only
    split_ifs <;> rfl
  · have hu := (osif_malloc_uncapped_frame env
      { (osif_malloc_reserve_cap env s size).2 with lastsuccess := env.zfs_lbolt } size).1
    unfold osif_malloc_pushpage
    dsimp only at hu ⊢
    split_ifs
    · exact hr
    · rw [hu]
      exact hr
    · exact hr

/-- C17, evaluated: a denied capped call and a denied pushpage call are still counted. -/
theorem call_counters_witness :
    (osif_malloc_capped (hostOk 1000 0 0 0)
      (budget 900 1000 1100) 200).2.stat_osif_capped_calls = 1 ∧
    (osif_malloc_pushpage (hostOk 1000 500 0 100)
      (budget 2000 1000 1100) 4096).2.stat_osif_cum_reserve_allocs = 1 :=
  ⟨(call_counters (hostOk 1000 0 0 0) (budget 900 1000 1100) 200).2.2.1,
   (call_counters (hostOk 1000 500 0 100) (budget 2000 1000 1100) 4096).2.2.2⟩

/-! ## The default-calls counter -/

/-- No strategy touches the default-calls counter. -/
theorem strategy_default_calls (st : Strategy) (env : Env) (s : State) (size : Nat) :
    (st.run env s size).2.stat_osif_default_calls = s.stat_osif_default_calls := by
  have hr := (osif_malloc_reserve_cap_frame env s size).2.2.2.2.1
  cases st with
  | Uncapped => exact (osif_malloc_uncapped_frame env s size).2
  | Capped =>
    simp only [Strategy.run]
    unfold osif_malloc_capped kernel_memory_allocate lazy_cap
    dsimp only
    split_ifs <;> rfl
  | Reserve => exact hr
  | Pushpage =>
    have hu := (osif_malloc_uncapped_frame env
      { (osif_malloc_reserve_cap env s size).2 with lastsuccess := env.zfs_lbolt } size).2
    simp only [Strategy.run]
    unfold osif_malloc_pushpage
    dsimp only at hu ⊢
    split_ifs
    · exact hr
    · rw [hu]
      exact hr
    · exact hr

/-- A default call runs the capped strategy after advancing the default-calls counter. -/
theorem segkmem_alloc_of_default (F : VmFlags) (env : Env) (s : State) (size vmflag : Nat)
    (h : DefaultCall F vmflag) :
    segkmem_alloc F env s size vmflag = osif_malloc_capped env
      { s with stat_osif_default_calls := add64 s.stat_osif_default_calls 1 } size := by
  obtain ⟨h0, h1, h2, h3, h4⟩ := h
  unfold segkmem_alloc
  dsimp only
  rw [if_neg h0, if_neg (not_not.mpr h1), if_neg (not_not.mpr h2), if_neg (not_not.mpr h3),
    if_neg (not_not.mpr h4)]

/-- Any other call leaves the default-calls counter alone. -/
theorem segkmem_alloc_of_not_default (F : VmFlags) (env : Env) (s : State)
    (size vmflag : Nat) (h : ¬ DefaultCall F vmflag) :
    (segkmem_alloc F env s size vmflag).2.stat_osif_default_calls =
      s.stat_osif_default_calls := by
  have hc := strategy_default_calls .Capped env s size
  have hu := strategy_default_calls .Uncapped env s size
  have hp := strategy_default_calls .Pushpage env s size
  simp only [Strategy.run] at hc hu hp
  unfold segkmem_alloc
  dsimp only
  split_ifs with h0 h1 h2 h3 h4
  · exact hc
  · exact hu
  · exact hp
  · exact hc
  · exact hc
  · exact absurd ⟨h0, not_not.mp h1, not_not.mp h2, not_not.mp h3, not_not.mp h4⟩ h

/-- C18. Apart from the comparison with the `VM_SLEEP` sentinel, the two dispatchers read
only the low 8 bits of the flag word: two words other than the sentinel with the same low
byte are dispatched alike. The default-calls counter advances by one exactly on a default
call (the word is not the sentinel and none of the four flags is set in its low byte),
which runs the capped strategy, and is unchanged otherwise. With `VM_SLEEP` the empty
word, a word whose only set bits lie above bit 7 is such a default call, while the
sentinel itself runs the capped strategy without touching the counter. -/
theorem segkmem_alloc_default_calls (F : VmFlags) (env : Env) (s : State)
    (size vmflag : Nat) :
    (∀ w, vmflag ≠ F.VM_SLEEP → w ≠ F.VM_SLEEP → w % 256 = vmflag % 256 →
      segkmem_alloc F env s size w = segkmem_alloc F env s size vmflag) ∧
    ((segkmem_alloc F env s size vmflag).2.stat_osif_default_calls =
        add64 s.stat_osif_default_calls 1 ↔ DefaultCall F vmflag) ∧
    (DefaultCall F vmflag →
      segkmem_alloc F env s size vmflag = osif_malloc_capped env
        { s with stat_osif_default_calls := add64 s.stat_osif_default_calls 1 } size) ∧
    (¬ DefaultCall F vmflag →
      (segkmem_alloc F env s size vmflag).2.stat_osif_default_calls =
        s.stat_osif_default_calls) ∧
    (F.VM_SLEEP = 0 → vmflag ≠ 0 → vmflag % 256 = 0 →
      segkmem_alloc F env s size vmflag = osif_malloc_capped env
        { s with stat_osif_default_calls := add64 s.stat_osif_default_calls 1 } size ∧
      (segkmem_alloc F env s size vmflag).2.stat_osif_default_calls =
        add64 s.stat_osif_default_calls 1) ∧
    (vmflag = F.VM_SLEEP →
      segkmem_alloc F env s size vmflag = osif_malloc_capped env s size ∧
      (segkmem_alloc F env s size vmflag).2.stat_osif_default_calls =
        s.stat_osif_default_calls) ∧
    segkmem_zio_alloc F env s size vmflag = segkmem_alloc F env s size vmflag := by
  have hcount : ∀ h : DefaultCall F vmflag,
      (segkmem_alloc F env s size vmflag).2.stat_osif_default_calls =
        add64 s.stat_osif_default_calls 1 := by
    intro h
    rw [segkmem_alloc_of_default F env s size vmflag h]
    exact strategy_default_calls .Capped env _ size
  refine ⟨?_, ⟨?_, hcount⟩, segkmem_alloc_of_default F env s size vmflag,
    segkmem_alloc_of_not_default F env s size vmflag, ?_, ?_, rfl⟩
  · intro w hv hw hlow
    unfold segkmem_alloc
    dsimp only
    rw [if_neg hv, if_neg hw, hlow]
  · intro h
    by_contra hnot
    rw [segkmem_alloc_of_not_default F env s size vmflag hnot] at h
    exact add64_one_ne _ h.symm
  · intro hsleep hne hlow
    have hdef : DefaultCall F vmflag := by
      unfold DefaultCall
      rw [hlow, hsleep]
      exact ⟨hne, Nat.zero_and _, Nat.zero_and _, Nat.zero_and _, Nat.zero_and _⟩
    exact ⟨segkmem_alloc_of_default F env s size vmflag hdef, hcount hdef⟩
  · intro h
    have hc : segkmem_alloc F env s size vmflag = osif_malloc_capped env s size := by
      unfold segkmem_alloc
      rw [if_pos h]
    rw [hc]
    exact ⟨rfl, strategy_default_calls .Capped env s size⟩

/-- C18, evaluated with the illumos flag values: the word `0x100` is counted as a default
call, and `VM_SLEEP` is not. -/
theorem segkmem_alloc_default_calls_witness :
    (segkmem_alloc illumosFlags (hostOk 1000 0 0 0)
      (budget 500 1000 1100) 100 256).2.stat_osif_default_calls = 1 ∧
    (segkmem_alloc illumosFlags (hostOk 1000 0 0 0)
      (budget 500 1000 1100) 100 0).2.stat_osif_default_calls = 0 :=
  ⟨((segkmem_alloc_default_calls illumosFlags (hostOk 1000 0 0 0) (budget 500 1000 1100) 100
      256).2.2.2.2.1 rfl (by decide) (by decide)).2,
   ((segkmem_alloc_default_calls illumosFlags (hostOk 1000 0 0 0) (budget 500 1000 1100) 100
      0).2.2.2.2.2.1 rfl).2⟩

end SegKmem
